import Mathlib

/-!
Shallow embedding of the `am_radiation_scripts` metric-derivation core
(`metrics.py`, `maps.py`, `fluxes.py`).

Multi-dimensional numpy arrays are modelled as a shape (list of axis
extents) together with a valuation on index vectors; numpy's floating
point numbers are modelled by the reals.  netCDF variables, the dataset,
`DerivedMetric`, `MetricsDataset` (with its registry of metrics as an
explicit association list standing for the dynamic `setattr` attributes),
and the `Fluxes` specialisation are translated definition by definition.
Fallible Python operations (KeyError, AttributeError, IndexError,
ValueError) are modelled with `Except String`.
-/

/-- Multi-dimensional numeric array: a shape plus a valuation on index vectors.
Only indices componentwise below the shape are meaningful. -/
structure NdArray where
  shape : List Nat
  val : List Nat → ℝ

/-- Number of axes, numpy's `ndim`. -/
def NdArray.ndim (a : NdArray) : Nat := a.shape.length

/-- numpy `mean(data, axis=k)`: arithmetic mean over axis `k`, which is dropped
from the shape. -/
noncomputable def NdArray.meanAxis (a : NdArray) (k : Nat) : NdArray where
  shape := a.shape.eraseIdx k
  val := fun idx =>
    (∑ i ∈ Finset.range (a.shape.getD k 0), a.val (idx.insertIdx k i)) /
      (a.shape.getD k 0 : ℝ)

/-- numpy basic indexing `a[..., t, ...]` selecting index `t` along axis `k`,
which is dropped from the shape. -/
def NdArray.select (a : NdArray) (k t : Nat) : NdArray where
  shape := a.shape.eraseIdx k
  val := fun idx => a.val (idx.insertIdx k t)

/-- Elementwise sum of two arrays of a common shape (numpy `+`). -/
def NdArray.add (a b : NdArray) : NdArray where
  shape := a.shape
  val := fun idx => a.val idx + b.val idx

/-- Elementwise difference of two arrays of a common shape (numpy `-`). -/
def NdArray.sub (a b : NdArray) : NdArray where
  shape := a.shape
  val := fun idx => a.val idx - b.val idx

/-- Multiplication of an array by a scalar (numpy `a * c`). -/
def NdArray.smul (a : NdArray) (c : ℝ) : NdArray where
  shape := a.shape
  val := fun idx => a.val idx * c

/-- Resolution of a (possibly negative) Python index against an axis of
extent `n`: negative indices count from the end of the axis. -/
def pyIndex (n : Nat) (i : Int) : Nat :=
  if i < 0 then n - (-i).toNat else i.toNat

/-- maps.py `zonal_mean(data)`: arithmetic mean over the last axis
(numpy `mean(data, axis=-1)` at the default `axis=-1`). -/
noncomputable def zonal_mean (data : NdArray) : NdArray :=
  data.meanAxis (data.ndim - 1)

/-- Weight applied to a latitude value (degrees) in maps.py `global_mean`:
`cos(2*pi*latitude/360)`. -/
noncomputable def cosWeight (y : ℝ) : ℝ := Real.cos (2 * Real.pi * y / 360)

/-- maps.py `global_mean(data, latitude)`: the zonal mean is reduced once more
over its (new) last axis by a cosine-of-latitude weighted sum, normalised by
the sum of the weights. -/
noncomputable def global_mean (data : NdArray) (latitude : List ℝ) : NdArray :=
  let weights := latitude.map cosWeight
  let z := zonal_mean data
  { shape := z.shape.eraseIdx (z.ndim - 1)
    val := fun idx =>
      (∑ i ∈ Finset.range (z.shape.getD (z.ndim - 1) 0),
          z.val (idx.insertIdx (z.ndim - 1) i) * weights.getD i 0) /
        weights.sum }

/-- cartopy `add_cyclic(data, x, y)` as used for lon-lat maps: the last
(longitude) axis gains one entry duplicating index 0, the longitude
coordinate gains the wrapped point `x[0] + 360`, the latitude coordinate is
returned unchanged. -/
def add_cyclic (data : NdArray) (x y : List ℝ) : NdArray × List ℝ × List ℝ :=
  let n := (data.shape.getLast?).getD 0
  (⟨data.shape.dropLast ++ [n + 1],
    fun idx =>
      if idx.getD (data.ndim - 1) 0 = n then data.val (idx.set (data.ndim - 1) 0)
      else data.val idx⟩,
   x ++ [x.headD 0 + 360], y)

/-- Lower-casing of an ASCII character, as Python `str.lower` acts on the
strings appearing here. -/
def lowerChar (c : Char) : Char :=
  if 65 ≤ c.toNat ∧ c.toNat ≤ 90 then Char.ofNat (c.toNat + 32) else c

/-- Python `s.lower()`: characterwise lower-casing. -/
def lowerStr (s : String) : String := ⟨s.data.map lowerChar⟩

/-- Python `s.replace(a, b)` for a single-character pattern, as used by
`quad_maps` on method names: every occurrence of `a` becomes `b`. -/
def strReplaceChar (s : String) (a b : Char) : String :=
  ⟨s.data.map (fun c => if c = a then b else c)⟩

/-- netCDF variable: a name, named dimensions in axis order, string-valued
attributes, and the data array. -/
structure Variable where
  name : String
  dimensions : List String
  attrs : List (String × String)
  data : NdArray

/-- Attribute lookup, `getncattr` (None encodes the AttributeError case). -/
def Variable.getncattr (v : Variable) (a : String) : Option String :=
  v.attrs.lookup a

/-- The values of a one-dimensional coordinate variable, `variable[...]`. -/
noncomputable def Variable.values (v : Variable) : List ℝ :=
  (List.range (v.data.shape.headD 0)).map (fun i => v.data.val [i])

/-- netCDF dataset: its variables in declaration order. -/
structure Dataset where
  vars : List Variable

/-- Lookup of `dataset.variables[name]` (None encodes the KeyError case). -/
def Dataset.getVar (ds : Dataset) (name : String) : Option Variable :=
  ds.vars.find? (fun v => v.name == name)

/-- metrics.py `grid(dataset, axis)`: the one-dimensional variables whose
`axis` attribute matches case-insensitively, in dataset order; a ValueError
when none are found. -/
def grid (dataset : Dataset) (axis : String) : Except String (List Variable) :=
  let dims := dataset.vars.filter (fun v =>
    v.dimensions.length == 1 &&
      (match v.getncattr "axis" with
       | some a => lowerStr a == lowerStr axis
       | none => false))
  if dims.isEmpty then Except.error "no grid variables found." else Except.ok dims

/-- metrics.py `DerivedMetric`: data array, dimension-name tuple, units. -/
structure DerivedMetric where
  data : NdArray
  dimensions : List String
  units : String

/-- metrics.py `MetricsDataset`: the dataset, the discovered time, longitude
and latitude dimension variables, the (possibly empty) vertical dimension
variables, and the registry of derived metrics (standing for the attributes
installed by `setattr`; the most recent binding for a name wins). -/
structure MetricsDataset where
  dataset : Dataset
  time : Variable
  longitude : Variable
  latitude : Variable
  vertical : List Variable
  metrics : List (String × DerivedMetric)

/-- `MetricsDataset.__init__(dataset)`: the first t/x/y grid variable each, the
z grid variables when present (an empty list when the z lookup fails). -/
def MetricsDataset.init (ds : Dataset) : Except String MetricsDataset := do
  let t ← grid ds "t"
  let x ← grid ds "x"
  let y ← grid ds "y"
  let z := match grid ds "z" with
    | Except.ok l => l
    | Except.error _ => []
  match t, x, y with
  | t0 :: _, x0 :: _, y0 :: _ => Except.ok ⟨ds, t0, x0, y0, z, []⟩
  | _, _, _ => Except.error "empty grid list"

/-- Registration of a metric under a name, `setattr(self, metric_name, m)`:
the new binding shadows any previous one. -/
def MetricsDataset.setMetric (self : MetricsDataset) (name : String)
    (m : DerivedMetric) : MetricsDataset :=
  { self with metrics := (name, m) :: self.metrics }

/-- Retrieval of a registered metric, `getattr(self, name)` (None encodes the
AttributeError case). -/
def MetricsDataset.getMetric (self : MetricsDataset) (name : String) :
    Option DerivedMetric :=
  self.metrics.lookup name

/-- The `variable` argument of `add_metric`: a variable name, a netCDF
variable, or an already-derived metric. -/
inductive MetricSource where
  | byName : String → MetricSource
  | var : Variable → MetricSource
  | metric : DerivedMetric → MetricSource

/-- Resolution of the `variable` argument of `add_metric` to its dimension
tuple, units attribute, and data array (lines 81-86 of metrics.py). -/
def MetricsDataset.resolveSource (self : MetricsDataset) (v : MetricSource) :
    Except String (List String × String × NdArray) :=
  match v with
  | MetricSource.byName s =>
    match self.dataset.getVar s with
    | none => Except.error "KeyError"
    | some w =>
      match w.getncattr "units" with
      | none => Except.error "AttributeError: units"
      | some u => Except.ok (w.dimensions, u, w.data)
  | MetricSource.var w =>
    match w.getncattr "units" with
    | none => Except.error "AttributeError: units"
    | some u => Except.ok (w.dimensions, u, w.data)
  | MetricSource.metric m => Except.ok (m.dimensions, m.units, m.data)

/-- metrics.py `MetricsDataset.add_metric(metric_name, variable, time_method,
time_index)`.  "average" takes the mean over the time axis wherever it sits;
"instantaneous" requires time to be the first axis and selects `time_index`
along it; "time series" takes the area-weighted global mean and keeps every
dimension other than longitude and latitude; anything else is a ValueError.
The resulting `DerivedMetric` is registered under `metric_name`. -/
noncomputable def MetricsDataset.add_metric (self : MetricsDataset)
    (metric_name : String) (source : MetricSource) (time_method : String)
    (time_index : Nat) : Except String MetricsDataset := do
  let r ← self.resolveSource source
  let dimensions := r.1
  let units := r.2.1
  let data := r.2.2
  if time_method = "average" then
    match dimensions.findIdx? (fun d => d == self.time.name) with
    | none => Except.error "ValueError: x not in list"
    | some k =>
      Except.ok (self.setMetric metric_name
        ⟨data.meanAxis k, dimensions.erase self.time.name, units⟩)
  else if time_method = "instantaneous" then
    match dimensions.findIdx? (fun d => d == self.time.name) with
    | none => Except.error "ValueError: x not in list"
    | some k =>
      if k ≠ 0 then Except.error "time must be the slowest varying dimension."
      else
        Except.ok (self.setMetric metric_name
          ⟨data.select 0 time_index, dimensions.erase self.time.name, units⟩)
  else if time_method = "time series" then
    Except.ok (self.setMetric metric_name
      ⟨global_mean data self.latitude.values,
       dimensions.filter (fun x =>
         !(x == self.longitude.name || x == self.latitude.name)), units⟩)
  else Except.error "A valid time_method must be specified."

/-- metrics.py `find_vertical(name)`: the vertical dimension variable with the
given name, a ValueError when absent. -/
def MetricsDataset.find_vertical (self : MetricsDataset) (name : String) :
    Except String Variable :=
  match self.vertical.find? (fun d => d.name == name) with
  | some d => Except.ok d
  | none => Except.error "Could not find the vertical dimension."

/-- metrics.py `is_vertical(name)`: whether `find_vertical` succeeds. -/
def MetricsDataset.is_vertical (self : MetricsDataset) (name : String) : Bool :=
  (self.find_vertical name).isOk

/-- maps.py `LonLatMap`: the cyclically extended field with its extended
longitude coordinate, the latitude coordinate, and the units label. -/
structure LonLatMap where
  data : NdArray
  x_data : List ℝ
  y_data : List ℝ
  data_label : String

/-- Construction of a `LonLatMap` from a metric and the longitude and latitude
coordinate variables (maps.py lines 41-49). -/
noncomputable def LonLatMap.make (metric : DerivedMetric)
    (longitude latitude : Variable) : LonLatMap :=
  let c := add_cyclic metric.data longitude.values latitude.values
  ⟨c.1, c.2.1, c.2.2, metric.units⟩

/-- metrics.py `lon_lat_map(name)`: requires the registered metric's dimension
tuple to be exactly (latitude, longitude); a ValueError otherwise. -/
noncomputable def MetricsDataset.lon_lat_map (self : MetricsDataset)
    (name : String) : Except String LonLatMap :=
  match self.getMetric name with
  | none => Except.error "AttributeError"
  | some metric =>
    if metric.dimensions ≠ [self.latitude.name, self.longitude.name] then
      Except.error "Invalid dimensions for a lon-lat map."
    else Except.ok (LonLatMap.make metric self.longitude self.latitude)

/-- maps.py `ZonalMeanMap`: the zonal-mean field over (vertical, latitude),
its coordinates, the axis-inversion flag, and the label strings. -/
structure ZonalMeanMap where
  data : NdArray
  x_data : List ℝ
  y_data : List ℝ
  invert_y_axis : Bool
  ylabel : String
  data_label : String

/-- metrics.py `zonal_mean_map(name)`: requires a 3-axis metric whose last two
dimensions are (latitude, longitude) and whose first dimension is a known
vertical dimension; the y axis is inverted when that dimension's `positive`
attribute is "down". -/
noncomputable def MetricsDataset.zonal_mean_map (self : MetricsDataset)
    (name : String) : Except String ZonalMeanMap :=
  match self.getMetric name with
  | none => Except.error "AttributeError"
  | some metric =>
    if metric.dimensions.length = 3 ∧
        metric.dimensions.drop 1 = [self.latitude.name, self.longitude.name] then
      match self.find_vertical (metric.dimensions.headD "") with
      | Except.error e => Except.error e
      | Except.ok y =>
        match y.getncattr "units", y.getncattr "positive" with
        | some u, some p =>
          Except.ok ⟨zonal_mean metric.data, self.latitude.values, y.values,
            lowerStr p == "down", u, metric.units⟩
        | _, _ => Except.error "AttributeError"
    else Except.error "Invalid dimensions for a zonal-mean map."

/-- maps.py `GlobalMeanVerticalPlot` after its constructor's axis swap: the
global-mean profile as x data, the vertical coordinate as y data, labels, and
the always-set inversion flag. -/
structure GlobalMeanVerticalPlot where
  x_data : NdArray
  data : List ℝ
  xlabel : String
  ylabel : String
  invert_y_axis : Bool

/-- metrics.py `global_mean_vertical_plot(name)`: same dimension precondition
as `zonal_mean_map`; the area-weighted global mean is taken at every vertical
level. -/
noncomputable def MetricsDataset.global_mean_vertical_plot
    (self : MetricsDataset) (name : String) :
    Except String GlobalMeanVerticalPlot :=
  match self.getMetric name with
  | none => Except.error "AttributeError"
  | some metric =>
    if metric.dimensions.length = 3 ∧
        metric.dimensions.drop 1 = [self.latitude.name, self.longitude.name] then
      match self.find_vertical (metric.dimensions.headD "") with
      | Except.error e => Except.error e
      | Except.ok y =>
        match y.getncattr "units" with
        | some u =>
          Except.ok ⟨global_mean metric.data self.latitude.values, y.values,
            metric.units, u, true⟩
        | none => Except.error "AttributeError"
    else Except.error "Invalid dimensions for a global mean line plot."

/-- fluxes.py `Fluxes`: a `MetricsDataset` plus the vertical indices of the
top of the atmosphere and the surface. -/
structure Fluxes extends MetricsDataset where
  toa : Int
  surface : Int

/-- fluxes.py `Fluxes.regimes` helper dictionary. -/
def Fluxes.regimes : List (String × String) :=
  [("longwave", "l"), ("shortwave", "s")]

/-- fluxes.py `Fluxes.sky` helper dictionary. -/
def Fluxes.sky : List (String × String) :=
  [("all", ""), ("clean", "af"), ("clean-clear", "csaf"), ("clear", "cs")]

/-- fluxes.py local `directions` dictionary inside `flux`. -/
def fluxDirections : List (String × String) := [("down", "d"), ("up", "u")]

/-- Python dictionary lookup `d[k]` (a KeyError when absent). -/
def dictGet (d : List (String × String)) (k : String) : Except String String :=
  match d.lookup k with
  | some v => Except.ok v
  | none => Except.error "KeyError"

/-- fluxes.py `Fluxes.__init__`: after the base constructor, the `positive`
attribute of the first vertical dimension variable fixes the
top-of-atmosphere/surface index convention ("down" puts the top of the
atmosphere at index 0); an IndexError when there is no vertical dimension. -/
def Fluxes.init (ds : Dataset) : Except String Fluxes := do
  let base ← MetricsDataset.init ds
  match base.vertical with
  | [] => Except.error "IndexError: list index out of range"
  | v0 :: _ =>
    match v0.getncattr "positive" with
    | none => Except.error "AttributeError: positive"
    | some p =>
      if lowerStr p = "down" then Except.ok ⟨base, 0, -1⟩
      else Except.ok ⟨base, -1, 0⟩

/-- fluxes.py `Fluxes.flux(regime, direction, conditions, location)`: resolves
the primitive flux variable by name composition; with a location, checks that
the second axis is a vertical dimension, slices at the resolved
top-of-atmosphere/surface index, and drops that axis name. -/
def Fluxes.flux (self : Fluxes) (regime direction conditions : String)
    (location : Option String) : Except String DerivedMetric := do
  let r ← dictGet Fluxes.regimes regime
  let d ← dictGet fluxDirections direction
  let s ← dictGet Fluxes.sky conditions
  match self.dataset.getVar ("r" ++ r ++ d ++ s) with
  | none => Except.error "KeyError"
  | some fluxVar =>
    match location with
    | none =>
      match fluxVar.getncattr "units" with
      | none => Except.error "AttributeError: units"
      | some units => Except.ok ⟨fluxVar.data, fluxVar.dimensions, units⟩
    | some loc =>
      let dimensions := fluxVar.dimensions
      match dimensions.get? 1 with
      | none => Except.error "IndexError"
      | some d1 =>
        if self.is_vertical d1 = false then
          Except.error "The second slowest dimension must be a vertical dimension."
        else do
          let locIdx ← (match loc with
            | "toa" => Except.ok self.toa
            | "surface" => Except.ok self.surface
            | _ => Except.error "AttributeError")
          match fluxVar.getncattr "units" with
          | none => Except.error "AttributeError: units"
          | some units =>
            Except.ok ⟨fluxVar.data.select 1
                (pyIndex (fluxVar.data.shape.getD 1 0) locIdx),
              dimensions.erase d1, units⟩

/-- fluxes.py `flux_down`. -/
def Fluxes.flux_down (self : Fluxes) (regime conditions : String)
    (location : Option String) : Except String DerivedMetric :=
  self.flux regime "down" conditions location

/-- fluxes.py `flux_up`. -/
def Fluxes.flux_up (self : Fluxes) (regime conditions : String)
    (location : Option String) : Except String DerivedMetric :=
  self.flux regime "up" conditions location

/-- fluxes.py `toa_energy_balance(regime, conditions)`: downward minus upward
flux at the top of the atmosphere; dimensions and units from the upward
flux. -/
def Fluxes.toa_energy_balance (self : Fluxes) (regime conditions : String) :
    Except String DerivedMetric := do
  let up ← self.flux_up regime conditions (some "toa")
  let down ← self.flux_down regime conditions (some "toa")
  Except.ok ⟨down.data.sub up.data, up.dimensions, up.units⟩

/-- fluxes.py `atmospheric_divergence(regime, conditions)`:
(toa down + surface up) - (toa up + surface down); dimensions and units from
the upward top-of-atmosphere flux. -/
def Fluxes.atmospheric_divergence (self : Fluxes) (regime conditions : String) :
    Except String DerivedMetric := do
  let surface_down ← self.flux_down regime conditions (some "surface")
  let surface_up ← self.flux_up regime conditions (some "surface")
  let toa_down ← self.flux_down regime conditions (some "toa")
  let toa_up ← self.flux_up regime conditions (some "toa")
  Except.ok ⟨(toa_down.data.add surface_up.data).sub
      (toa_up.data.add surface_down.data),
    toa_up.dimensions, toa_up.units⟩

/-- fluxes.py `heating_rate(regime, conditions)`: the precomputed tendency
variable, multiplied by 34*3600 with the units relabelled to "K day-1" when
its units are "K s-1", and untouched (factor 1) otherwise. -/
def Fluxes.heating_rate (self : Fluxes) (regime conditions : String) :
    Except String DerivedMetric := do
  let r ← dictGet Fluxes.regimes regime
  let s ← dictGet Fluxes.sky conditions
  match self.dataset.getVar ("tntr" ++ r ++ s) with
  | none => Except.error "KeyError"
  | some heating =>
    match heating.getncattr "units" with
    | none => Except.error "AttributeError: units"
    | some units0 =>
      let p : String × ℝ :=
        if units0 = "K s-1" then ("K day-1", 34 * 3600) else (units0, 1)
      Except.ok ⟨heating.data.smul p.2, heating.dimensions, p.1⟩

/-- fluxes.py `Case` namedtuple. -/
structure Case where
  data : String
  baseline : Option String
  title : String

/-- fluxes.py `case_list()`: the fixed four comparison cases. -/
def case_list : List Case :=
  [⟨"clean-clear", none, "Clean-clear Sky"⟩,
   ⟨"clean", some "clean-clear", "Cloud Effects"⟩,
   ⟨"all", some "clean", "Aerosol Effects"⟩,
   ⟨"all", none, "All Sky"⟩]

/-- `add_metric` invoked on a `Fluxes` object: the underlying metric registry
is updated, the flux-specific fields are untouched. -/
noncomputable def Fluxes.add_metric (f : Fluxes) (name : String)
    (source : MetricSource) (tm : String) (ti : Nat) : Except String Fluxes := do
  let base ← f.toMetricsDataset.add_metric name source tm ti
  Except.ok { f with toMetricsDataset := base }

/-- Dynamic dispatch `getattr(fluxes, metric)(*args)` in `quad_maps`: the five
derivation methods of `Fluxes`, called with the argument list obtained by
dropping the None entries; the two-argument methods reject a location
argument. -/
def callMetricMethod (f : Fluxes) (metric regime conditions : String)
    (location : Option String) : Except String DerivedMetric :=
  match metric with
  | "flux_up" => f.flux_up regime conditions location
  | "flux_down" => f.flux_down regime conditions location
  | "toa_energy_balance" =>
    match location with
    | none => f.toa_energy_balance regime conditions
    | some _ => Except.error "TypeError"
  | "atmospheric_divergence" =>
    match location with
    | none => f.atmospheric_divergence regime conditions
    | some _ => Except.error "TypeError"
  | "heating_rate" =>
    match location with
    | none => f.heating_rate regime conditions
    | some _ => Except.error "TypeError"
  | _ => Except.error "AttributeError"

/-- Dynamic dispatch `getattr(fluxes, map_method)(name)` in `quad_maps`,
keeping only whether the classification succeeds (the rendering of the
resulting map object is out of scope). -/
noncomputable def mapDispatch (f : Fluxes) (map_method name : String) :
    Except String Unit :=
  match map_method with
  | "lon_lat_map" => do
    let _ ← f.toMetricsDataset.lon_lat_map name
    Except.ok ()
  | "zonal_mean_map" => do
    let _ ← f.toMetricsDataset.zonal_mean_map name
    Except.ok ()
  | "global_mean_vertical_plot" => do
    let _ ← f.toMetricsDataset.global_mean_vertical_plot name
    Except.ok ()
  | _ => Except.error "AttributeError"

/-- One iteration of the `quad_maps` loop body for a single case: evaluate the
chosen derivation method with the case's data label, subtract the baseline
evaluation when the baseline label is present, register the result under
"{case.data} {metric with underscores replaced}" via `add_metric` (with its
default arguments "average" and 0), classify it with the chosen map method,
and append (case title, derived metric) to the output mapping. -/
noncomputable def quad_step (metric regime : String) (location : Option String)
    (map_method : String) (acc : Fluxes × List (String × DerivedMetric))
    (c : Case) : Except String (Fluxes × List (String × DerivedMetric)) := do
  let f := acc.1
  let name := c.data ++ " " ++ strReplaceChar metric (Char.ofNat 95) (Char.ofNat 32)
  let dm ← callMetricMethod f metric regime c.data location
  let dm ← (match c.baseline with
    | none => Except.ok dm
    | some b => do
      let baseline ← callMetricMethod f metric regime b location
      Except.ok { dm with data := dm.data.sub baseline.data })
  let f ← f.add_metric name (MetricSource.metric dm) "average" 0
  let _ ← mapDispatch f map_method name
  Except.ok (f, acc.2 ++ [(c.title, dm)])

/-- fluxes.py `quad_maps(fluxes, metric, regime, title, location, pdf,
map_method)`: the four-case comparison loop over `case_list()`, returning the
updated `Fluxes` object together with the ordered title-to-metric mapping
(the Figure/pdf rendering side effects are out of scope). -/
noncomputable def quad_maps (fluxes : Fluxes) (metric regime : String)
    (location : Option String) (map_method : String) :
    Except String (Fluxes × List (String × DerivedMetric)) :=
  case_list.foldlM (quad_step metric regime location map_method) (fluxes, [])

/-- Example time coordinate variable (3 samples, axis attribute "T"). -/
def timeVar : Variable :=
  ⟨"time", ["time"], [("axis", "T"), ("units", "days")], ⟨[3], fun idx => (idx.headD 0 : ℝ)⟩⟩

/-- Example longitude coordinate variable (8 points, axis attribute "X"). -/
def lonVar : Variable :=
  ⟨"lon", ["lon"], [("axis", "X"), ("units", "degrees_east")],
   ⟨[8], fun idx => (idx.headD 0 : ℝ) * 45⟩⟩

/-- Example latitude coordinate variable (4 points, axis attribute "Y"). -/
def latVar : Variable :=
  ⟨"lat", ["lat"], [("axis", "Y"), ("units", "degrees_north")],
   ⟨[4], fun _ => 0⟩⟩

/-- Example vertical coordinate variable (2 levels, axis attribute "Z",
pressure-like so that `positive` is "down"). -/
def levelVar : Variable :=
  ⟨"level", ["level"], [("axis", "Z"), ("positive", "down"), ("units", "Pa")],
   ⟨[2], fun idx => (idx.headD 0 : ℝ) * 500⟩⟩

/-- Example flux variable over (time, level, lat, lon), constant value `c`. -/
def constFluxVar (nm : String) (c : ℝ) : Variable :=
  ⟨nm, ["time", "level", "lat", "lon"], [("units", "W m-2")],
   ⟨[3, 2, 4, 8], fun _ => c⟩⟩

/-- Example plain (T=3, Y=2, X=2) variable with time as the first axis and
value 100*t + 10*y + x. -/
def v322 : Variable :=
  ⟨"v322", ["time", "y", "x"], [("units", "K")],
   ⟨[3, 2, 2],
    fun idx => (idx.getD 0 0 : ℝ) * 100 + (idx.getD 1 0 : ℝ) * 10 + (idx.getD 2 0 : ℝ)⟩⟩

/-- Example variable whose time dimension is not the slowest-varying axis. -/
def vTimeLast : Variable :=
  ⟨"vtimelast", ["y", "time"], [("units", "K")], ⟨[2, 3], fun _ => 1⟩⟩

/-- Example heating-rate tendency variable with per-second units. -/
def tntrlVar : Variable :=
  ⟨"tntrl", ["time", "level", "lat", "lon"], [("units", "K s-1")],
   ⟨[3, 2, 4, 8], fun _ => 2⟩⟩

/-- Example heating-rate tendency variable whose units are not "K s-1". -/
def tntrsVar : Variable :=
  ⟨"tntrs", ["time", "level", "lat", "lon"], [("units", "K")],
   ⟨[3, 2, 4, 8], fun _ => 3⟩⟩

/-- Example dataset: coordinates plus constant longwave flux variables with
all-sky value 10, clean value 7 and clean-clear value 5, and two tendency
variables. -/
def exDataset : Dataset :=
  ⟨[timeVar, lonVar, latVar, levelVar,
    constFluxVar "rlu" 10, constFluxVar "rluaf" 7, constFluxVar "rlucsaf" 5,
    constFluxVar "rld" 10, constFluxVar "rldaf" 7, constFluxVar "rldcsaf" 5,
    v322, vTimeLast, tntrlVar, tntrsVar]⟩

/-- The `MetricsDataset` produced for the example dataset. -/
def exMD : MetricsDataset := ⟨exDataset, timeVar, lonVar, latVar, [levelVar], []⟩

/-- The `Fluxes` object produced for the example dataset ("positive: down"
puts the top of the atmosphere at vertical index 0). -/
def exFluxes : Fluxes := ⟨exMD, 0, -1⟩

/-- Example dataset with no vertical dimension variable. -/
def exDatasetNoZ : Dataset := ⟨[timeVar, lonVar, latVar, v322]⟩

/-- Rank agreement between the upward and downward primitive flux variables of
a regime and sky condition: the two netCDF variables have the same number of
axes. -/
def RankUD (f : Fluxes) (r c : String) : Prop :=
  ∀ rs cs vu vd,
    Fluxes.regimes.lookup r = some rs →
    Fluxes.sky.lookup c = some cs →
    f.dataset.getVar ("r" ++ rs ++ "u" ++ cs) = some vu →
    f.dataset.getVar ("r" ++ rs ++ "d" ++ cs) = some vd →
    vu.data.ndim = vd.data.ndim

/-- Example `MetricsDataset` with two registered 2-d metrics: one over
(lat, lon) with value 10*i + j, one over (lon, lat). -/
def exMapMD : MetricsDataset :=
  { exMD with metrics :=
      [("m1", ⟨⟨[4, 8], fun idx => (idx.getD 0 0 : ℝ) * 10 + (idx.getD 1 0 : ℝ)⟩,
        ["lat", "lon"], "W m-2"⟩),
       ("m2", ⟨⟨[8, 4], fun _ => 0⟩, ["lon", "lat"], "W m-2"⟩)] }

/-- The discovery condition of metrics.py `grid`: a one-dimensional variable
whose `axis` attribute matches the requested role up to case. -/
def GridMatch (axis : String) (v : Variable) : Prop :=
  v.dimensions.length = 1 ∧
    ∃ a, v.getncattr "axis" = some a ∧ lowerStr a = lowerStr axis

/-- Well-formedness of a variable: as many dimension names as array axes. -/
def Variable.Wf (v : Variable) : Prop := v.dimensions.length = v.data.ndim

/-- Well-formedness of a derived metric: as many dimension names as array
axes (the invariant of claim C1). -/
def DerivedMetric.Wf (m : DerivedMetric) : Prop := m.dimensions.length = m.data.ndim

/-- Well-formedness of a dataset: every variable is well formed. -/
def Dataset.Wf (ds : Dataset) : Prop := ∀ v ∈ ds.vars, v.Wf

/-- Well-formedness of the metric registry: every registered metric is well
formed. -/
def MetricsDataset.WfMetrics (self : MetricsDataset) : Prop :=
  ∀ p ∈ self.metrics, (p.2 : DerivedMetric).Wf

instance (v : Variable) : Decidable v.Wf := Nat.decEq _ _

instance (m : DerivedMetric) : Decidable m.Wf := Nat.decEq _ _

instance (ds : Dataset) : Decidable ds.Wf :=
  List.decidableBAll _ _

instance (self : MetricsDataset) : Decidable self.WfMetrics :=
  List.decidableBAll _ _

/-- Binding an ok value just applies the continuation. -/
theorem exceptBindOk {α β : Type} (a : α) (g : α → Except String β) :
    (Except.ok a >>= g) = g a := rfl

/-- Binding an error propagates the error. -/
theorem exceptBindErr {α β : Type} (e : String) (g : α → Except String β) :
    ((Except.error e : Except String α) >>= g) = Except.error e := rfl

/-- A successful string-keyed findIdx? pins membership and a length bound. -/
theorem findIdx_beq_some {l : List String} {t : String} {k : Nat}
    (h : l.findIdx? (fun d => d == t) = some k) : t ∈ l ∧ k < l.length := by
  rw [List.findIdx?_eq_some_iff_getElem] at h
  obtain ⟨hk, hp, -⟩ := h
  have he : l[k] = t := by simpa using hp
  exact ⟨he ▸ List.getElem_mem hk, hk⟩

/-- Erasing a present element shortens a list by one. -/
theorem length_erase_mem {l : List String} {t : String} (h : t ∈ l) :
    (l.erase t).length = l.length - 1 := by
  rw [List.length_erase]
  simp [h]

/-- The sum of a real list as a range sum of its entries. -/
theorem list_sum_getD (l : List ℝ) :
    l.sum = ∑ i ∈ Finset.range l.length, l.getD i 0 := by
  induction l with
  | nil => simp
  | cons a t ih =>
    rw [List.sum_cons, List.length_cons, Finset.sum_range_succ']
    simp only [List.getD_cons_succ, List.getD_cons_zero]
    rw [ih]
    ring

/-- Counting elements equal to either of two distinct values. -/
theorem countP_beq_or {a b : String} (hab : a ≠ b) (l : List String) :
    l.countP (fun x => x == a || x == b) = l.count a + l.count b := by
  induction l with
  | nil => simp
  | cons c t ih =>
    rw [List.countP_cons, List.count_cons, List.count_cons, ih]
    by_cases hca : c = a <;> by_cases hcb : c = b
    · exact absurd (hca.symm.trans hcb) hab
    · simp [hca, hcb, hab, Ne.symm hab]
      omega
    · simp [hca, hcb, hab, Ne.symm hab]
      omega
    · simp [hca, hcb]

/-- Complementary counts add up to the length. -/
theorem countP_not_add (q : String → Bool) (l : List String) :
    l.countP (fun x => !(q x)) + l.countP q = l.length := by
  induction l with
  | nil => simp
  | cons c t ih =>
    rw [List.countP_cons, List.countP_cons]
    by_cases h : q c <;> simp [h] <;> omega

/-- Length of the time-series dimension filter: dropping a longitude and a
latitude name that each occur exactly once removes exactly two entries. -/
theorem length_filter_lonlat {lo la : String} (hab : lo ≠ la) (l : List String)
    (hlo : l.count lo = 1) (hla : l.count la = 1) :
    (l.filter (fun x => !(x == lo || x == la))).length = l.length - 2 := by
  have h1 : (l.filter (fun x => !(x == lo || x == la))).length =
      l.countP (fun x => !(x == lo || x == la)) :=
    (List.countP_eq_length_filter _ _).symm
  have h2 := countP_not_add (fun x => x == lo || x == la) l
  rw [countP_beq_or hab, hlo, hla] at h2
  omega

/-- The number of axes after `meanAxis` on a real axis drops by one. -/
theorem meanAxis_ndim {a : NdArray} {k : Nat} (hk : k < a.ndim) :
    (a.meanAxis k).ndim = a.ndim - 1 := by
  simp only [NdArray.meanAxis, NdArray.ndim, List.length_eraseIdx] at *
  simp [hk]

/-- The number of axes after `select` on a real axis drops by one. -/
theorem select_ndim {a : NdArray} {k : Nat} (t : Nat) (hk : k < a.ndim) :
    (a.select k t).ndim = a.ndim - 1 := by
  simp only [NdArray.select, NdArray.ndim, List.length_eraseIdx] at *
  simp [hk]

/-- The global mean removes the two trailing spatial axes. -/
theorem global_mean_ndim (data : NdArray) (lats : List ℝ) :
    (global_mean data lats).ndim = data.ndim - 2 := by
  simp only [global_mean, zonal_mean, NdArray.meanAxis, NdArray.ndim,
    List.length_eraseIdx]
  split_ifs <;> omega

theorem flux_loc_ok_elim {f : Fluxes} {r d c loc : String} {m : DerivedMetric}
    (h : f.flux r d c (some loc) = Except.ok m) :
    ∃ rs dd cs v d1 units li,
      Fluxes.regimes.lookup r = some rs ∧
      fluxDirections.lookup d = some dd ∧
      Fluxes.sky.lookup c = some cs ∧
      f.dataset.getVar ("r" ++ rs ++ dd ++ cs) = some v ∧
      v.dimensions.get? 1 = some d1 ∧
      f.is_vertical d1 = true ∧
      v.getncattr "units" = some units ∧
      ((loc = "toa" ∧ li = f.toa) ∨ (loc = "surface" ∧ li = f.surface)) ∧
      m = ⟨v.data.select 1 (pyIndex (v.data.shape.getD 1 0) li),
           v.dimensions.erase d1, units⟩ := by
  unfold Fluxes.flux dictGet at h
  simp only [bind, Except.bind] at h
  cases hr : List.lookup r Fluxes.regimes with
  | none => rw [hr] at h; simp at h
  | some rs =>
  rw [hr] at h
  try dsimp only at h
  cases hd : List.lookup d fluxDirections with
  | none => rw [hd] at h; simp at h
  | some dd =>
  rw [hd] at h
  try dsimp only at h
  cases hc : List.lookup c Fluxes.sky with
  | none => rw [hc] at h; simp at h
  | some cs =>
  rw [hc] at h
  try dsimp only at h
  cases hv : f.dataset.getVar ("r" ++ rs ++ dd ++ cs) with
  | none => rw [hv] at h; simp at h
  | some v =>
  rw [hv] at h
  try dsimp only at h
  cases h1 : v.dimensions.get? 1 with
  | none => rw [h1] at h; simp at h
  | some d1 =>
  rw [h1] at h
  try dsimp only at h
  by_cases hvert : f.is_vertical d1 = false
  · rw [if_pos hvert] at h; simp at h
  · rw [if_neg hvert] at h
    try dsimp only at h
    by_cases hloc : loc = "toa"
    · subst hloc
      try dsimp only at h
      cases hu : v.getncattr "units" with
      | none => rw [hu] at h; simp at h
      | some units =>
      rw [hu] at h
      try dsimp only at h
      refine ⟨rs, dd, cs, v, d1, units, f.toa, rfl, rfl, rfl, hv, h1, ?_, hu, Or.inl ⟨rfl, rfl⟩, ?_⟩
      · simpa using hvert
      · exact (Except.ok.inj h).symm
    · by_cases hloc2 : loc = "surface"
      · subst hloc2
        try dsimp only at h
        cases hu : v.getncattr "units" with
        | none => rw [hu] at h; simp at h
        | some units =>
        rw [hu] at h
        try dsimp only at h
        refine ⟨rs, dd, cs, v, d1, units, f.surface, rfl, rfl, rfl, hv, h1, ?_, hu, Or.inr ⟨rfl, rfl⟩, ?_⟩
        · simpa using hvert
        · exact (Except.ok.inj h).symm
      · have : (match loc with
          | "toa" => Except.ok f.toa
          | "surface" => Except.ok f.surface
          | _ => Except.error "AttributeError") = Except.error "AttributeError" := by
          split
          · simp_all
          · simp_all
          · rfl
        rw [this] at h
        try dsimp only at h
        simp at h

theorem flux_none_ok_elim {f : Fluxes} {r d c : String} {m : DerivedMetric}
    (h : f.flux r d c none = Except.ok m) :
    ∃ rs dd cs v units,
      Fluxes.regimes.lookup r = some rs ∧
      fluxDirections.lookup d = some dd ∧
      Fluxes.sky.lookup c = some cs ∧
      f.dataset.getVar ("r" ++ rs ++ dd ++ cs) = some v ∧
      v.getncattr "units" = some units ∧
      m = ⟨v.data, v.dimensions, units⟩ := by
  unfold Fluxes.flux dictGet at h
  simp only [bind, Except.bind] at h
  cases hr : List.lookup r Fluxes.regimes with
  | none => rw [hr] at h; simp at h
  | some rs =>
  rw [hr] at h
  try dsimp only at h
  cases hd : List.lookup d fluxDirections with
  | none => rw [hd] at h; simp at h
  | some dd =>
  rw [hd] at h
  try dsimp only at h
  cases hc : List.lookup c Fluxes.sky with
  | none => rw [hc] at h; simp at h
  | some cs =>
  rw [hc] at h
  try dsimp only at h
  cases hv : f.dataset.getVar ("r" ++ rs ++ dd ++ cs) with
  | none => rw [hv] at h; simp at h
  | some v =>
  rw [hv] at h
  try dsimp only at h
  cases hu : v.getncattr "units" with
  | none => rw [hu] at h; simp at h
  | some units =>
  rw [hu] at h
  try dsimp only at h
  exact ⟨rs, dd, cs, v, units, rfl, rfl, rfl, hv, hu, (Except.ok.inj h).symm⟩

theorem getVar_mem {ds : Dataset} {s : String} {v : Variable}
    (h : ds.getVar s = some v) : v ∈ ds.vars :=
  List.mem_of_find?_eq_some h

theorem flux_wf {f : Fluxes} {r d c : String} {loc : Option String}
    {m : DerivedMetric} (hds : f.dataset.Wf)
    (h : f.flux r d c loc = Except.ok m) : m.Wf := by
  cases loc with
  | none =>
    obtain ⟨rs, dd, cs, v, units, -, -, -, hv, -, hm⟩ := flux_none_ok_elim h
    subst hm
    exact hds v (getVar_mem hv)
  | some loc =>
    obtain ⟨rs, dd, cs, v, d1, units, li, -, -, -, hv, hg, -, -, -, hm⟩ :=
      flux_loc_ok_elim h
    subst hm
    have hvwf : v.dimensions.length = v.data.ndim := hds v (getVar_mem hv)
    rw [List.get?_eq_getElem?] at hg
    have hlt : 1 < v.dimensions.length := by
      obtain ⟨hh, -⟩ := List.getElem?_eq_some_iff.mp hg
      exact hh
    have hmem : d1 ∈ v.dimensions := List.getElem?_mem hg
    show (v.dimensions.erase d1).length = (v.data.select 1 _).ndim
    rw [length_erase_mem hmem, select_ndim _ (by omega)]
    omega

theorem heating_rate_ok_elim {f : Fluxes} {r c : String} {m : DerivedMetric}
    (h : f.heating_rate r c = Except.ok m) :
    ∃ rs cs v units0,
      Fluxes.regimes.lookup r = some rs ∧
      Fluxes.sky.lookup c = some cs ∧
      f.dataset.getVar ("tntr" ++ rs ++ cs) = some v ∧
      v.getncattr "units" = some units0 ∧
      m = ⟨v.data.smul (if units0 = "K s-1" then (34 * 3600 : ℝ) else 1),
           v.dimensions,
           if units0 = "K s-1" then "K day-1" else units0⟩ := by
  unfold Fluxes.heating_rate dictGet at h
  simp only [bind, Except.bind] at h
  cases hr : List.lookup r Fluxes.regimes with
  | none => rw [hr] at h; simp at h
  | some rs =>
  rw [hr] at h
  try dsimp only at h
  cases hc : List.lookup c Fluxes.sky with
  | none => rw [hc] at h; simp at h
  | some cs =>
  rw [hc] at h
  try dsimp only at h
  cases hv : f.dataset.getVar ("tntr" ++ rs ++ cs) with
  | none => rw [hv] at h; simp at h
  | some v =>
  rw [hv] at h
  try dsimp only at h
  cases hu : v.getncattr "units" with
  | none => rw [hu] at h; simp at h
  | some units0 =>
  rw [hu] at h
  try dsimp only at h
  refine ⟨rs, cs, v, units0, rfl, rfl, hv, hu, ?_⟩
  by_cases he : units0 = "K s-1"
  · rw [if_pos he, if_pos he]
    rw [if_pos he] at h
    exact (Except.ok.inj h).symm
  · rw [if_neg he, if_neg he]
    rw [if_neg he] at h
    exact (Except.ok.inj h).symm

theorem toa_energy_balance_ok_elim {f : Fluxes} {r c : String} {m : DerivedMetric}
    (h : f.toa_energy_balance r c = Except.ok m) :
    ∃ up down,
      f.flux_up r c (some "toa") = Except.ok up ∧
      f.flux_down r c (some "toa") = Except.ok down ∧
      m = ⟨down.data.sub up.data, up.dimensions, up.units⟩ := by
  unfold Fluxes.toa_energy_balance at h
  simp only [bind, Except.bind] at h
  cases hu : f.flux_up r c (some "toa") with
  | error e => rw [hu] at h; simp at h
  | ok up =>
  rw [hu] at h
  try dsimp only at h
  cases hd : f.flux_down r c (some "toa") with
  | error e => rw [hd] at h; simp at h
  | ok down =>
  rw [hd] at h
  try dsimp only at h
  exact ⟨up, down, rfl, rfl, (Except.ok.inj h).symm⟩

theorem atmospheric_divergence_ok_elim {f : Fluxes} {r c : String}
    {m : DerivedMetric} (h : f.atmospheric_divergence r c = Except.ok m) :
    ∃ sd su td tu,
      f.flux_down r c (some "surface") = Except.ok sd ∧
      f.flux_up r c (some "surface") = Except.ok su ∧
      f.flux_down r c (some "toa") = Except.ok td ∧
      f.flux_up r c (some "toa") = Except.ok tu ∧
      m = ⟨(td.data.add su.data).sub (tu.data.add sd.data),
           tu.dimensions, tu.units⟩ := by
  unfold Fluxes.atmospheric_divergence at h
  simp only [bind, Except.bind] at h
  cases h1 : f.flux_down r c (some "surface") with
  | error e => rw [h1] at h; simp at h
  | ok sd =>
  rw [h1] at h
  try dsimp only at h
  cases h2 : f.flux_up r c (some "surface") with
  | error e => rw [h2] at h; simp at h
  | ok su =>
  rw [h2] at h
  try dsimp only at h
  cases h3 : f.flux_down r c (some "toa") with
  | error e => rw [h3] at h; simp at h
  | ok td =>
  rw [h3] at h
  try dsimp only at h
  cases h4 : f.flux_up r c (some "toa") with
  | error e => rw [h4] at h; simp at h
  | ok tu =>
  rw [h4] at h
  try dsimp only at h
  exact ⟨sd, su, td, tu, rfl, rfl, rfl, rfl, (Except.ok.inj h).symm⟩

theorem add_metric_average_ok {self : MetricsDataset} {n : String}
    {src : MetricSource} {ti : Nat} {dims : List String} {units : String}
    {data : NdArray} {k : Nat}
    (hres : self.resolveSource src = Except.ok (dims, units, data))
    (hk : dims.findIdx? (fun d => d == self.time.name) = some k) :
    self.add_metric n src "average" ti =
      Except.ok (self.setMetric n
        ⟨data.meanAxis k, dims.erase self.time.name, units⟩) := by
  unfold MetricsDataset.add_metric
  rw [hres, exceptBindOk]
  simp [hk]

theorem add_metric_average_err {self : MetricsDataset} {n : String}
    {src : MetricSource} {ti : Nat} {dims : List String} {units : String}
    {data : NdArray}
    (hres : self.resolveSource src = Except.ok (dims, units, data))
    (hk : dims.findIdx? (fun d => d == self.time.name) = none) :
    self.add_metric n src "average" ti = Except.error "ValueError: x not in list" := by
  unfold MetricsDataset.add_metric
  rw [hres, exceptBindOk]
  simp [hk]

theorem add_metric_instantaneous_ok {self : MetricsDataset} {n : String}
    {src : MetricSource} {ti : Nat} {dims : List String} {units : String}
    {data : NdArray}
    (hres : self.resolveSource src = Except.ok (dims, units, data))
    (hk : dims.findIdx? (fun d => d == self.time.name) = some 0) :
    self.add_metric n src "instantaneous" ti =
      Except.ok (self.setMetric n
        ⟨data.select 0 ti, dims.erase self.time.name, units⟩) := by
  unfold MetricsDataset.add_metric
  rw [hres, exceptBindOk]
  simp [hk]

theorem add_metric_instantaneous_err {self : MetricsDataset} {n : String}
    {src : MetricSource} {ti : Nat} {dims : List String} {units : String}
    {data : NdArray} {k : Nat}
    (hres : self.resolveSource src = Except.ok (dims, units, data))
    (hk : dims.findIdx? (fun d => d == self.time.name) = some k) (hk0 : k ≠ 0) :
    self.add_metric n src "instantaneous" ti =
      Except.error "time must be the slowest varying dimension." := by
  unfold MetricsDataset.add_metric
  rw [hres, exceptBindOk]
  simp [hk, hk0]

theorem add_metric_timeseries_ok {self : MetricsDataset} {n : String}
    {src : MetricSource} {ti : Nat} {dims : List String} {units : String}
    {data : NdArray}
    (hres : self.resolveSource src = Except.ok (dims, units, data)) :
    self.add_metric n src "time series" ti =
      Except.ok (self.setMetric n
        ⟨global_mean data self.latitude.values,
         dims.filter (fun x =>
           !(x == self.longitude.name || x == self.latitude.name)), units⟩) := by
  unfold MetricsDataset.add_metric
  rw [hres, exceptBindOk]
  simp

theorem add_metric_invalid_err {self : MetricsDataset} {n : String}
    {src : MetricSource} {tm : String} {ti : Nat} {dims : List String}
    {units : String} {data : NdArray}
    (hres : self.resolveSource src = Except.ok (dims, units, data))
    (h1 : tm ≠ "average") (h2 : tm ≠ "instantaneous") (h3 : tm ≠ "time series") :
    self.add_metric n src tm ti =
      Except.error "A valid time_method must be specified." := by
  unfold MetricsDataset.add_metric
  rw [hres, exceptBindOk]
  simp [h1, h2, h3]

theorem add_metric_preserves_wf {self : MetricsDataset} {n : String}
    {src : MetricSource} {tm : String} {ti : Nat} {self' : MetricsDataset}
    {dims : List String} {units : String} {data : NdArray}
    (hres : self.resolveSource src = Except.ok (dims, units, data))
    (hwf : dims.length = data.ndim)
    (hts : tm = "time series" →
      self.longitude.name ≠ self.latitude.name ∧
      dims.count self.longitude.name = 1 ∧ dims.count self.latitude.name = 1)
    (hm : self.WfMetrics)
    (h : self.add_metric n src tm ti = Except.ok self') : self'.WfMetrics := by
  by_cases h1 : tm = "average"
  · subst h1
    cases hk : dims.findIdx? (fun d => d == self.time.name) with
    | none => rw [add_metric_average_err hres hk] at h; simp at h
    | some k =>
      rw [add_metric_average_ok hres hk] at h
      obtain ⟨hmem, hlt⟩ := findIdx_beq_some hk
      have hself := (Except.ok.inj h).symm
      subst hself
      intro p hp
      rcases List.mem_cons.mp hp with heq | hp2
      · subst heq
        show (dims.erase self.time.name).length = (data.meanAxis k).ndim
        rw [length_erase_mem hmem, meanAxis_ndim (by omega)]
        omega
      · exact hm p hp2
  · by_cases h2 : tm = "instantaneous"
    · subst h2
      cases hk : dims.findIdx? (fun d => d == self.time.name) with
      | none =>
        unfold MetricsDataset.add_metric at h
        rw [hres, exceptBindOk] at h
        simp [hk] at h
      | some k =>
        by_cases hk0 : k = 0
        · subst hk0
          rw [add_metric_instantaneous_ok hres hk] at h
          obtain ⟨hmem, hlt⟩ := findIdx_beq_some hk
          have hself := (Except.ok.inj h).symm
          subst hself
          intro p hp
          rcases List.mem_cons.mp hp with heq | hp2
          · subst heq
            show (dims.erase self.time.name).length = (data.select 0 ti).ndim
            rw [length_erase_mem hmem, select_ndim _ (by omega)]
            omega
          · exact hm p hp2
        · rw [add_metric_instantaneous_err hres hk hk0] at h
          simp at h
    · by_cases h3 : tm = "time series"
      · subst h3
        rw [add_metric_timeseries_ok hres] at h
        obtain ⟨hne, hlo, hla⟩ := hts rfl
        have hself := (Except.ok.inj h).symm
        subst hself
        intro p hp
        rcases List.mem_cons.mp hp with heq | hp2
        · subst heq
          show (dims.filter (fun x =>
              !(x == self.longitude.name || x == self.latitude.name))).length =
            (global_mean data self.latitude.values).ndim
          rw [length_filter_lonlat hne dims hlo hla, global_mean_ndim]
          omega
        · exact hm p hp2
      · rw [add_metric_invalid_err hres h1 h2 h3] at h
        simp at h

theorem toa_energy_balance_wf {f : Fluxes} {r c : String} {m : DerivedMetric}
    (hds : f.dataset.Wf) (hrk : RankUD f r c)
    (h : f.toa_energy_balance r c = Except.ok m) : m.Wf := by
  obtain ⟨up, down, hu, hd, hm⟩ := toa_energy_balance_ok_elim h
  obtain ⟨rs, dd, cs, vu, d1, units, li, hr1, hd1, hc1, hv1, hg1, -, -, -, hup⟩ :=
    flux_loc_ok_elim (show f.flux r "up" c (some "toa") = Except.ok up from hu)
  obtain ⟨rs2, dd2, cs2, vd, d2, units2, li2, hr2, hd2, hc2, hv2, hg2, -, -, -, hdn⟩ :=
    flux_loc_ok_elim (show f.flux r "down" c (some "toa") = Except.ok down from hd)
  rw [show List.lookup "up" fluxDirections = some "u" from rfl] at hd1
  rw [show List.lookup "down" fluxDirections = some "d" from rfl] at hd2
  have hddu : dd = "u" := (Option.some.inj hd1).symm
  have hddd : dd2 = "d" := (Option.some.inj hd2).symm
  subst hddu hddd
  rw [hr1] at hr2
  have hrs : rs2 = rs := (Option.some.inj hr2).symm
  subst hrs
  rw [hc1] at hc2
  have hcs : cs2 = cs := (Option.some.inj hc2).symm
  subst hcs
  have hrank : vu.data.ndim = vd.data.ndim := hrk _ _ _ _ hr1 hc1 hv1 hv2
  have hvuwf : vu.dimensions.length = vu.data.ndim := hds vu (getVar_mem hv1)
  rw [List.get?_eq_getElem?] at hg1 hg2
  have hlt1 : 1 < vu.dimensions.length := (List.getElem?_eq_some_iff.mp hg1).1
  have hmem1 : d1 ∈ vu.dimensions := List.getElem?_mem hg1
  subst hm hup hdn
  show (vu.dimensions.erase d1).length = _
  rw [length_erase_mem hmem1]
  show vu.dimensions.length - 1 = ((vd.data.select 1 _).sub _).ndim
  have : ((vd.data.select 1 (pyIndex (vd.data.shape.getD 1 0) li2)).sub
      ((vu.data.select 1 (pyIndex (vu.data.shape.getD 1 0) li)))).ndim =
      (vd.data.select 1 (pyIndex (vd.data.shape.getD 1 0) li2)).ndim := rfl
  rw [this, select_ndim _ (by omega)]
  omega

theorem atmospheric_divergence_wf {f : Fluxes} {r c : String} {m : DerivedMetric}
    (hds : f.dataset.Wf) (hrk : RankUD f r c)
    (h : f.atmospheric_divergence r c = Except.ok m) : m.Wf := by
  obtain ⟨sd, su, td, tu, -, -, h3, h4, hm⟩ := atmospheric_divergence_ok_elim h
  obtain ⟨rs, dd, cs, vd, d2, units2, li2, hr2, hd2, hc2, hv2, hg2, -, -, -, hdn⟩ :=
    flux_loc_ok_elim (show f.flux r "down" c (some "toa") = Except.ok td from h3)
  obtain ⟨rs1, dd1, cs1, vu, d1, units1, li1, hr1, hd1, hc1, hv1, hg1, -, -, -, hup⟩ :=
    flux_loc_ok_elim (show f.flux r "up" c (some "toa") = Except.ok tu from h4)
  rw [show List.lookup "up" fluxDirections = some "u" from rfl] at hd1
  rw [show List.lookup "down" fluxDirections = some "d" from rfl] at hd2
  have hddu : dd1 = "u" := (Option.some.inj hd1).symm
  have hddd : dd = "d" := (Option.some.inj hd2).symm
  subst hddu hddd
  rw [hr2] at hr1
  have hrs : rs1 = rs := (Option.some.inj hr1).symm
  subst hrs
  rw [hc2] at hc1
  have hcs : cs1 = cs := (Option.some.inj hc1).symm
  subst hcs
  have hrank : vu.data.ndim = vd.data.ndim :=
    hrk _ _ _ _ hr2 hc2 hv1 hv2
  have hvuwf : vu.dimensions.length = vu.data.ndim := hds vu (getVar_mem hv1)
  rw [List.get?_eq_getElem?] at hg1 hg2
  have hlt1 : 1 < vu.dimensions.length := (List.getElem?_eq_some_iff.mp hg1).1
  have hmem1 : d1 ∈ vu.dimensions := List.getElem?_mem hg1
  subst hm hup hdn
  show (vu.dimensions.erase d1).length = _
  rw [length_erase_mem hmem1]
  show vu.dimensions.length - 1 =
    (vd.data.select 1 (pyIndex (vd.data.shape.getD 1 0) li2)).ndim
  rw [select_ndim _ (by omega)]
  omega

theorem quad_step_none_ok_elim {metric regime mm : String} {loc : Option String}
    {fx : Fluxes} {outp : List (String × DerivedMetric)} {cd ct : String}
    {res : Fluxes × List (String × DerivedMetric)}
    (h : quad_step metric regime loc mm (fx, outp) ⟨cd, none, ct⟩ =
      Except.ok res) :
    ∃ dm k,
      callMetricMethod fx metric regime cd loc = Except.ok dm ∧
      dm.dimensions.findIdx? (fun d => d == fx.time.name) = some k ∧
      res = (⟨fx.toMetricsDataset.setMetric
          (cd ++ " " ++ strReplaceChar metric (Char.ofNat 95) (Char.ofNat 32))
          ⟨dm.data.meanAxis k, dm.dimensions.erase fx.time.name, dm.units⟩,
        fx.toa, fx.surface⟩,
       outp ++ [(ct, dm)]) := by
  unfold quad_step Fluxes.add_metric at h
  simp only [bind, Except.bind] at h
  try dsimp only at h
  cases hdm : callMetricMethod fx metric regime cd loc with
  | error e => rw [hdm] at h; simp at h
  | ok dm =>
  rw [hdm] at h
  try dsimp only at h
  have hres : fx.toMetricsDataset.resolveSource (MetricSource.metric dm) =
      Except.ok (dm.dimensions, dm.units, dm.data) := rfl
  cases hk : dm.dimensions.findIdx? (fun d => d == fx.time.name) with
  | none =>
    rw [add_metric_average_err hres hk] at h
    simp at h
  | some k =>
  rw [add_metric_average_ok hres hk] at h
  try dsimp only at h
  cases hmd : mapDispatch
      ⟨fx.toMetricsDataset.setMetric
        (cd ++ " " ++ strReplaceChar metric (Char.ofNat 95) (Char.ofNat 32))
        ⟨dm.data.meanAxis k, dm.dimensions.erase fx.time.name, dm.units⟩,
       fx.toa, fx.surface⟩ mm
      (cd ++ " " ++ strReplaceChar metric (Char.ofNat 95) (Char.ofNat 32)) with
  | error e => rw [hmd] at h; simp at h
  | ok u =>
  rw [hmd] at h
  try dsimp only at h
  exact ⟨dm, k, rfl, hk, (Except.ok.inj h).symm⟩

theorem quad_step_some_ok_elim {metric regime mm : String} {loc : Option String}
    {fx : Fluxes} {outp : List (String × DerivedMetric)} {cd cb ct : String}
    {res : Fluxes × List (String × DerivedMetric)}
    (h : quad_step metric regime loc mm (fx, outp) ⟨cd, some cb, ct⟩ =
      Except.ok res) :
    ∃ dm0 bl k,
      callMetricMethod fx metric regime cd loc = Except.ok dm0 ∧
      callMetricMethod fx metric regime cb loc = Except.ok bl ∧
      ({ dm0 with data := dm0.data.sub bl.data } :
          DerivedMetric).dimensions.findIdx? (fun d => d == fx.time.name) =
        some k ∧
      res = (⟨fx.toMetricsDataset.setMetric
          (cd ++ " " ++ strReplaceChar metric (Char.ofNat 95) (Char.ofNat 32))
          ⟨(dm0.data.sub bl.data).meanAxis k,
           dm0.dimensions.erase fx.time.name, dm0.units⟩,
        fx.toa, fx.surface⟩,
       outp ++ [(ct, { dm0 with data := dm0.data.sub bl.data })]) := by
  unfold quad_step Fluxes.add_metric at h
  simp only [bind, Except.bind] at h
  try dsimp only at h
  cases hdm : callMetricMethod fx metric regime cd loc with
  | error e => rw [hdm] at h; simp at h
  | ok dm0 =>
  rw [hdm] at h
  try dsimp only at h
  cases hbl : callMetricMethod fx metric regime cb loc with
  | error e => rw [hbl] at h; simp at h
  | ok bl =>
  rw [hbl] at h
  try dsimp only at h
  have hres : fx.toMetricsDataset.resolveSource
      (MetricSource.metric { dm0 with data := dm0.data.sub bl.data }) =
      Except.ok (dm0.dimensions, dm0.units, dm0.data.sub bl.data) := rfl
  cases hk : dm0.dimensions.findIdx? (fun d => d == fx.time.name) with
  | none =>
    rw [add_metric_average_err hres hk] at h
    simp at h
  | some k =>
  rw [add_metric_average_ok hres hk] at h
  try dsimp only at h
  cases hmd : mapDispatch
      ⟨fx.toMetricsDataset.setMetric
        (cd ++ " " ++ strReplaceChar metric (Char.ofNat 95) (Char.ofNat 32))
        ⟨(dm0.data.sub bl.data).meanAxis k,
         dm0.dimensions.erase fx.time.name, dm0.units⟩,
       fx.toa, fx.surface⟩ mm
      (cd ++ " " ++ strReplaceChar metric (Char.ofNat 95) (Char.ofNat 32)) with
  | error e => rw [hmd] at h; simp at h
  | ok u =>
  rw [hmd] at h
  try dsimp only at h
  exact ⟨dm0, bl, k, rfl, rfl, hk, (Except.ok.inj h).symm⟩

theorem quad_maps_ok_elim {f : Fluxes} {metric regime : String}
    {loc : Option String} {mm : String} {f4 : Fluxes}
    {out : List (String × DerivedMetric)}
    (h : quad_maps f metric regime loc mm = Except.ok (f4, out)) :
    ∃ m1 m2 m3,
      callMetricMethod f metric regime "clean-clear" loc = Except.ok m1 ∧
      callMetricMethod f metric regime "clean" loc = Except.ok m2 ∧
      callMetricMethod f metric regime "all" loc = Except.ok m3 ∧
      out = [("Clean-clear Sky", m1),
             ("Cloud Effects", { m2 with data := m2.data.sub m1.data }),
             ("Aerosol Effects", { m3 with data := m3.data.sub m2.data }),
             ("All Sky", m3)] := by
  unfold quad_maps case_list at h
  simp only [List.foldlM, bind, Except.bind, pure, Except.pure] at h
  split at h
  · simp at h
  · rename_i res1 heq1
    obtain ⟨m1, k1, hc1, hk1, hr1⟩ := quad_step_none_ok_elim heq1
    subst hr1
    split at h
    · simp at h
    · rename_i res2 heq2
      obtain ⟨m2, bl2, k2, hc2, hb2, hk2, hr2⟩ := quad_step_some_ok_elim heq2
      subst hr2
      have hc2f : callMetricMethod f metric regime "clean" loc = Except.ok m2 := hc2
      have hb2f : callMetricMethod f metric regime "clean-clear" loc =
          Except.ok bl2 := hb2
      rw [hc1] at hb2f
      obtain rfl : m1 = bl2 := Except.ok.inj hb2f
      split at h
      · simp at h
      · rename_i res3 heq3
        obtain ⟨m3, bl3, k3, hc3, hb3, hk3, hr3⟩ := quad_step_some_ok_elim heq3
        subst hr3
        have hc3f : callMetricMethod f metric regime "all" loc = Except.ok m3 := hc3
        have hb3f : callMetricMethod f metric regime "clean" loc = Except.ok bl3 := hb3
        rw [hc2f] at hb3f
        obtain rfl : m2 = bl3 := Except.ok.inj hb3f
        split at h
        · simp at h
        · rename_i res4 heq4
          obtain ⟨m4, k4, hc4, hk4, hr4⟩ := quad_step_none_ok_elim heq4
          subst hr4
          have hc4f : callMetricMethod f metric regime "all" loc = Except.ok m4 := hc4
          rw [hc3f] at hc4f
          obtain rfl : m3 = m4 := Except.ok.inj hc4f
          refine ⟨m1, m2, m3, hc1, hc2f, hc3f, ?_⟩
          have hout : _ = out := congrArg Prod.snd (Except.ok.inj h)
          rw [← hout]
          simp

/-- C2: for a source whose dimension tuple contains the time dimension's name
at position `k`, `add_metric` with time_method "average" succeeds and registers
under the given name (shadowing any previous entry) a DerivedMetric whose data
is the arithmetic mean of the source over exactly axis `k` and whose dimension
tuple is the source tuple with the time name removed. -/
theorem C2_add_metric_average {self : MetricsDataset} {n : String}
    {src : MetricSource} {ti : Nat} {dims : List String} {units : String}
    {data : NdArray} {k : Nat}
    (hres : self.resolveSource src = Except.ok (dims, units, data))
    (hk : dims.findIdx? (fun d => d == self.time.name) = some k) :
    ∃ self', self.add_metric n src "average" ti = Except.ok self' ∧
      self'.getMetric n =
        some ⟨data.meanAxis k, dims.erase self.time.name, units⟩ ∧
      (data.meanAxis k).shape = data.shape.eraseIdx k ∧
      (∀ idx, (data.meanAxis k).val idx =
        (∑ i ∈ Finset.range (data.shape.getD k 0),
          data.val (idx.insertIdx k i)) / (data.shape.getD k 0 : ℝ)) ∧
      self'.metrics =
        (n, ⟨data.meanAxis k, dims.erase self.time.name, units⟩) ::
          self.metrics := by
  refine ⟨_, add_metric_average_ok hres hk, ?_, rfl, fun idx => rfl, rfl⟩
  simp [MetricsDataset.getMetric, MetricsDataset.setMetric, List.lookup]

/-- Witness for C2: the example (T=3, Y=2, X=2) variable with time first
yields a registered metric of shape (2, 2) with dimensions (y, x), units kept,
and (0,0)-entry equal to the mean (0 + 100 + 200)/3 = 100. -/
theorem C2_witness :
    ∃ self', exMD.add_metric "mymetric" (MetricSource.byName "v322") "average" 0 =
        Except.ok self' ∧
      ∃ m, self'.getMetric "mymetric" = some m ∧
        m.dimensions = ["y", "x"] ∧
        m.data.shape = [2, 2] ∧
        m.units = "K" ∧
        m.data.val [0, 0] = 100 := by
  obtain ⟨self', hadd, hget, hshape, hval, -⟩ :=
    @C2_add_metric_average exMD "mymetric" (MetricSource.byName "v322") 0
      ["time", "y", "x"] "K" v322.data 0 rfl rfl
  refine ⟨self', hadd, _, hget, rfl, ?_, rfl, ?_⟩
  · rw [hshape]
    rfl
  · rw [hval [0, 0]]
    show (∑ i ∈ Finset.range 3, v322.data.val [i, 0, 0]) / ((3 : ℕ) : ℝ) = 100
    rw [Finset.sum_range_succ, Finset.sum_range_succ, Finset.sum_range_succ,
      Finset.sum_range_zero]
    show (0 + (((0:ℕ) : ℝ) * 100 + ((0:ℕ) : ℝ) * 10 + ((0:ℕ) : ℝ)) +
      (((1:ℕ) : ℝ) * 100 + ((0:ℕ) : ℝ) * 10 + ((0:ℕ) : ℝ)) +
      (((2:ℕ) : ℝ) * 100 + ((0:ℕ) : ℝ) * 10 + ((0:ℕ) : ℝ))) / ((3 : ℕ) : ℝ) = 100
    norm_num

/-- C3: `lon_lat_map` on a registered metric succeeds exactly when its
dimension tuple is (latitude, longitude); otherwise it is the ValueError.  On
success the longitude axis is extended by one wrap-around column equal to
column 0, the interior is unchanged, and the longitude coordinate array is
extended by the wrapped point. -/
theorem C3_lon_lat_map {self : MetricsDataset} {name : String}
    {metric : DerivedMetric} {nlat nlon : Nat}
    (hm : self.getMetric name = some metric)
    (hshape : metric.data.shape = [nlat, nlon]) :
    ((∃ llm, self.lon_lat_map name = Except.ok llm) ↔
      metric.dimensions = [self.latitude.name, self.longitude.name]) ∧
    (metric.dimensions ≠ [self.latitude.name, self.longitude.name] →
      self.lon_lat_map name =
        Except.error "Invalid dimensions for a lon-lat map.") ∧
    (metric.dimensions = [self.latitude.name, self.longitude.name] →
      ∃ llm, self.lon_lat_map name = Except.ok llm ∧
        llm.data.shape = [nlat, nlon + 1] ∧
        (∀ i, llm.data.val [i, nlon] = metric.data.val [i, 0]) ∧
        (∀ i j, j < nlon → llm.data.val [i, j] = metric.data.val [i, j]) ∧
        llm.x_data =
          self.longitude.values ++ [self.longitude.values.headD 0 + 360]) := by
  obtain ⟨⟨sh, vals⟩, dims, units⟩ := metric
  simp only at hshape
  subst hshape
  have herr : dims ≠ [self.latitude.name, self.longitude.name] →
      self.lon_lat_map name =
        Except.error "Invalid dimensions for a lon-lat map." := by
    intro hne
    unfold MetricsDataset.lon_lat_map
    rw [hm]
    try dsimp only
    rw [if_pos hne]
  have hok : dims = [self.latitude.name, self.longitude.name] →
      self.lon_lat_map name = Except.ok (LonLatMap.make
        ⟨⟨[nlat, nlon], vals⟩, dims, units⟩ self.longitude self.latitude) := by
    intro he
    unfold MetricsDataset.lon_lat_map
    rw [hm]
    try dsimp only
    rw [if_neg (by simp [he])]
  refine ⟨⟨?_, ?_⟩, herr, ?_⟩
  · rintro ⟨llm, hllm⟩
    by_cases hd : dims = [self.latitude.name, self.longitude.name]
    · exact hd
    · rw [herr hd] at hllm
      simp at hllm
  · intro he
    exact ⟨_, hok he⟩
  · intro he
    refine ⟨_, hok he, ?_, ?_, ?_, rfl⟩
    · show ([nlat, nlon].dropLast ++ [([nlat, nlon].getLast?).getD 0 + 1]) = _
      rfl
    · intro i
      show (if ([i, nlon].getD 1 0) = ([nlat, nlon].getLast?).getD 0 then
          vals (List.set [i, nlon] 1 0) else vals [i, nlon]) = vals [i, 0]
      rw [if_pos (show ([i, nlon].getD 1 0) = ([nlat, nlon].getLast?).getD 0 from
        rfl)]
      rfl
    · intro i j hj
      show (if ([i, j].getD 1 0) = ([nlat, nlon].getLast?).getD 0 then
          vals (List.set [i, j] 1 0) else vals [i, j]) = vals [i, j]
      rw [if_neg (show ¬ ([i, j].getD 1 0) = ([nlat, nlon].getLast?).getD 0 from by
        show ¬ j = nlon
        omega)]

/-- Witness for C3: on the registered (lat=4, lon=8) metric the map has 9
longitude columns with the wrap-around column equal to column 0 and a
9-point longitude coordinate, while the metric registered with dimensions
(lon, lat) is rejected with the ValueError. -/
theorem C3_witness :
    (∃ llm, exMapMD.lon_lat_map "m1" = Except.ok llm ∧
      llm.data.shape = [4, 9] ∧
      (∀ i, llm.data.val [i, 8] = llm.data.val [i, 0]) ∧
      llm.x_data.length = 9) ∧
    exMapMD.lon_lat_map "m2" =
      Except.error "Invalid dimensions for a lon-lat map." := by
  obtain ⟨-, -, hok⟩ := @C3_lon_lat_map exMapMD "m1"
    ⟨⟨[4, 8], fun idx => (idx.getD 0 0 : ℝ) * 10 + (idx.getD 1 0 : ℝ)⟩,
      ["lat", "lon"], "W m-2"⟩ 4 8 rfl rfl
  obtain ⟨llm, hllm, hshape, hwrap, hint, hx⟩ := hok rfl
  obtain ⟨-, herr2, -⟩ := @C3_lon_lat_map exMapMD "m2"
    ⟨⟨[8, 4], fun _ => 0⟩, ["lon", "lat"], "W m-2"⟩ 8 4 rfl rfl
  refine ⟨⟨llm, hllm, hshape, ?_, ?_⟩, herr2 (by decide)⟩
  · intro i
    rw [hwrap i, hint i 0 (by norm_num)]
  · rw [hx]
    rfl

/-- C5: `global_mean` is the two-stage reduction — plain arithmetic mean over
the longitude (last) axis, then a cos(latitude-in-radians)-weighted mean over
latitude normalised by the weight sum — and on a field uniformly equal to `c`
over a (nlat, nlon) grid with nonzero weight sum it returns the fully reduced
scalar `c`. -/
theorem C5_global_mean_uniform {data : NdArray} {latitude : List ℝ} {c : ℝ}
    {nlat nlon : Nat}
    (hshape : data.shape = [nlat, nlon]) (hlat : latitude.length = nlat)
    (hconst : ∀ idx, data.val idx = c) (hnlon : 0 < nlon)
    (hw : (latitude.map cosWeight).sum ≠ 0) :
    (∀ j, (zonal_mean data).val [j] =
      (∑ i ∈ Finset.range nlon, data.val [j, i]) / (nlon : ℝ)) ∧
    ((global_mean data latitude).val [] =
      (∑ j ∈ Finset.range nlat,
        (zonal_mean data).val [j] * (latitude.map cosWeight).getD j 0) /
        (latitude.map cosWeight).sum) ∧
    (global_mean data latitude).shape = [] ∧
    (global_mean data latitude).val [] = c := by
  obtain ⟨sh, vals⟩ := data
  simp only at hshape
  subst hshape
  have hz : ∀ j, (zonal_mean ⟨[nlat, nlon], vals⟩).val [j] =
      (∑ i ∈ Finset.range nlon, vals [j, i]) / (nlon : ℝ) := fun j => rfl
  have hg : (global_mean ⟨[nlat, nlon], vals⟩ latitude).val [] =
      (∑ j ∈ Finset.range nlat,
        (zonal_mean ⟨[nlat, nlon], vals⟩).val [j] *
          (latitude.map cosWeight).getD j 0) /
        (latitude.map cosWeight).sum := rfl
  refine ⟨hz, hg, rfl, ?_⟩
  rw [hg]
  have hzc : ∀ j, (zonal_mean ⟨[nlat, nlon], vals⟩).val [j] = c := by
    intro j
    rw [hz j]
    have : ∀ i ∈ Finset.range nlon, vals [j, i] = c := fun i _ => hconst [j, i]
    rw [Finset.sum_congr rfl this, Finset.sum_const, Finset.card_range,
      nsmul_eq_mul]
    rw [mul_comm ((nlon : ℕ) : ℝ) c, mul_div_assoc,
      div_self (Nat.cast_ne_zero.mpr hnlon.ne'), mul_one]
  have : ∀ j ∈ Finset.range nlat,
      (zonal_mean ⟨[nlat, nlon], vals⟩).val [j] *
        (latitude.map cosWeight).getD j 0 =
      c * (latitude.map cosWeight).getD j 0 := fun j _ => by rw [hzc j]
  rw [Finset.sum_congr rfl this, ← Finset.mul_sum]
  have hsum : ∑ j ∈ Finset.range nlat, (latitude.map cosWeight).getD j 0 =
      (latitude.map cosWeight).sum := by
    rw [list_sum_getD]
    congr 1
    rw [List.length_map, hlat]
  rw [hsum, mul_div_assoc, div_self hw, mul_one]

/-- Witness for C5: the constant-7 field on a (2, 3) grid with latitudes
(0, 0) — weights (1, 1), weight sum 2 — has global mean 7. -/
theorem C5_witness :
    (([(0 : ℝ), 0].map cosWeight).sum ≠ 0) ∧
    (global_mean ⟨[2, 3], fun _ => 7⟩ [(0 : ℝ), 0]).val [] = 7 := by
  have hw : (([(0 : ℝ), 0].map cosWeight).sum) = 2 := by
    norm_num [cosWeight]
  refine ⟨by rw [hw]; norm_num, ?_⟩
  exact (@C5_global_mean_uniform ⟨[2, 3], fun _ => 7⟩ [(0 : ℝ), 0] 7 2 3
    rfl rfl (fun _ => rfl) (by norm_num) (by rw [hw]; norm_num)).2.2.2

/-- C6: when the four located flux lookups succeed, `atmospheric_divergence`
returns (toa down + surface up) - (toa up + surface down) elementwise, and if
the downward flux equals the upward flux at both the top of the atmosphere
and the surface the result is the all-zero field. -/
theorem C6_atmospheric_divergence {f : Fluxes} {r c : String}
    {sd su td tu : DerivedMetric}
    (h1 : f.flux_down r c (some "surface") = Except.ok sd)
    (h2 : f.flux_up r c (some "surface") = Except.ok su)
    (h3 : f.flux_down r c (some "toa") = Except.ok td)
    (h4 : f.flux_up r c (some "toa") = Except.ok tu) :
    ∃ m, f.atmospheric_divergence r c = Except.ok m ∧
      (∀ idx, m.data.val idx =
        td.data.val idx + su.data.val idx -
          (tu.data.val idx + sd.data.val idx)) ∧
      ((∀ idx, td.data.val idx = tu.data.val idx) →
        (∀ idx, sd.data.val idx = su.data.val idx) →
        ∀ idx, m.data.val idx = 0) := by
  have hm : f.atmospheric_divergence r c = Except.ok
      ⟨(td.data.add su.data).sub (tu.data.add sd.data),
       tu.dimensions, tu.units⟩ := by
    unfold Fluxes.atmospheric_divergence
    simp only [bind, Except.bind]
    rw [h1]
    try dsimp only
    rw [h2]
    try dsimp only
    rw [h3]
    try dsimp only
    rw [h4]
  refine ⟨_, hm, fun idx => rfl, ?_⟩
  intro htoa hsurf idx
  show td.data.val idx + su.data.val idx -
    (tu.data.val idx + sd.data.val idx) = 0
  rw [htoa idx, hsurf idx]
  ring

/-- Witness for C6: in the example dataset the longwave all-sky downward and
upward fluxes are the same constant field, so the divergence is identically
zero. -/
theorem C6_witness :
    ∃ m, exFluxes.atmospheric_divergence "longwave" "all" = Except.ok m ∧
      ∀ idx, m.data.val idx = 0 := by
  obtain ⟨m, hm, -, hz⟩ :=
    @C6_atmospheric_divergence exFluxes "longwave" "all" _ _ _ _ rfl rfl rfl rfl
  exact ⟨m, hm, hz (fun idx => rfl) (fun idx => rfl)⟩

/-- C7: `heating_rate` looks up the tendency variable by composed name and,
exactly when its units attribute is "K s-1", multiplies the data by the
literal factor 34*3600 = 122400 and relabels the units "K day-1"; for any
other units string the data is multiplied by 1 and the units are unchanged. -/
theorem C7_heating_rate {f : Fluxes} {r c rs cs : String} {v : Variable}
    {u0 : String}
    (hr : Fluxes.regimes.lookup r = some rs)
    (hc : Fluxes.sky.lookup c = some cs)
    (hv : f.dataset.getVar ("tntr" ++ rs ++ cs) = some v)
    (hu : v.getncattr "units" = some u0) :
    ∃ m, f.heating_rate r c = Except.ok m ∧
      m.dimensions = v.dimensions ∧
      (34 * 3600 : ℝ) = 122400 ∧
      (u0 = "K s-1" → m.units = "K day-1" ∧
        ∀ idx, m.data.val idx = v.data.val idx * (34 * 3600)) ∧
      (u0 ≠ "K s-1" → m.units = u0 ∧
        ∀ idx, m.data.val idx = v.data.val idx * 1) := by
  have hm : f.heating_rate r c = Except.ok
      ⟨v.data.smul (if u0 = "K s-1" then (34 * 3600 : ℝ) else 1),
       v.dimensions, if u0 = "K s-1" then "K day-1" else u0⟩ := by
    unfold Fluxes.heating_rate dictGet
    simp only [bind, Except.bind]
    rw [hr]
    try dsimp only
    rw [hc]
    try dsimp only
    rw [hv]
    try dsimp only
    rw [hu]
    try dsimp only
    by_cases he : u0 = "K s-1"
    · rw [if_pos he, if_pos he, if_pos he]
    · rw [if_neg he, if_neg he, if_neg he]
  refine ⟨_, hm, rfl, by norm_num, ?_, ?_⟩
  · intro he
    refine ⟨?_, ?_⟩
    · show (if u0 = "K s-1" then "K day-1" else u0) = "K day-1"
      rw [if_pos he]
    · intro idx
      show v.data.val idx * (if u0 = "K s-1" then (34 * 3600 : ℝ) else 1) =
        v.data.val idx * (34 * 3600)
      rw [if_pos he]
  · intro he
    refine ⟨?_, ?_⟩
    · show (if u0 = "K s-1" then "K day-1" else u0) = u0
      rw [if_neg he]
    · intro idx
      show v.data.val idx * (if u0 = "K s-1" then (34 * 3600 : ℝ) else 1) =
        v.data.val idx * 1
      rw [if_neg he]

/-- Witness for C7: the "K s-1" tendency variable is rescaled by 122400 with
units "K day-1"; the tendency variable with units "K" is left untouched. -/
theorem C7_witness :
    (∃ m, exFluxes.heating_rate "longwave" "all" = Except.ok m ∧
      m.units = "K day-1" ∧ m.data.val [0, 0, 0, 0] = 2 * 122400) ∧
    (∃ m, exFluxes.heating_rate "shortwave" "all" = Except.ok m ∧
      m.units = "K" ∧ m.data.val [0, 0, 0, 0] = 3) := by
  obtain ⟨m1, hm1, -, -, hks, -⟩ :=
    @C7_heating_rate exFluxes "longwave" "all" "l" "" tntrlVar "K s-1"
      rfl rfl rfl rfl
  obtain ⟨hu1, hv1⟩ := hks rfl
  obtain ⟨m2, hm2, -, -, -, hne⟩ :=
    @C7_heating_rate exFluxes "shortwave" "all" "s" "" tntrsVar "K"
      rfl rfl rfl rfl
  obtain ⟨hu2, hv2⟩ := hne (by decide)
  refine ⟨⟨m1, hm1, hu1, ?_⟩, ⟨m2, hm2, hu2, ?_⟩⟩
  · rw [hv1 [0, 0, 0, 0]]
    show (2 : ℝ) * (34 * 3600) = 2 * 122400
    norm_num
  · rw [hv2 [0, 0, 0, 0]]
    show (3 : ℝ) * 1 = 3
    norm_num

/-- C8: `add_metric` with time_method "instantaneous" and the time dimension
not first fails with the slowest-varying ValueError; an unrecognised
time_method fails with the invalid-method ValueError; and a successful
`add_metric` only ever prepends one entry to the metric registry, so an error
leaves the registry of the caller's dataset value unchanged (no partial
commit is observable). -/
theorem C8_add_metric_errors :
    (∀ (self : MetricsDataset) (n : String) (src : MetricSource) (ti : Nat)
       (dims : List String) (units : String) (data : NdArray) (k : Nat),
      self.resolveSource src = Except.ok (dims, units, data) →
      dims.findIdx? (fun d => d == self.time.name) = some k → k ≠ 0 →
      self.add_metric n src "instantaneous" ti =
        Except.error "time must be the slowest varying dimension.") ∧
    (∀ (self : MetricsDataset) (n : String) (src : MetricSource)
       (tm : String) (ti : Nat) (dims : List String) (units : String)
       (data : NdArray),
      self.resolveSource src = Except.ok (dims, units, data) →
      tm ≠ "average" → tm ≠ "instantaneous" → tm ≠ "time series" →
      self.add_metric n src tm ti =
        Except.error "A valid time_method must be specified.") ∧
    (∀ (self self' : MetricsDataset) (n : String) (src : MetricSource)
       (tm : String) (ti : Nat),
      self.add_metric n src tm ti = Except.ok self' →
      ∃ m, self'.metrics = (n, m) :: self.metrics) := by
  refine ⟨?_, ?_, ?_⟩
  · intro self n src ti dims units data k hres hk hk0
    exact add_metric_instantaneous_err hres hk hk0
  · intro self n src tm ti dims units data hres h1 h2 h3
    exact add_metric_invalid_err hres h1 h2 h3
  · intro self self' n src tm ti h
    unfold MetricsDataset.add_metric at h
    cases hres : self.resolveSource src with
    | error e => rw [hres] at h; simp [exceptBindErr] at h
    | ok r =>
    obtain ⟨dims, units, data⟩ := r
    rw [hres, exceptBindOk] at h
    by_cases h1 : tm = "average"
    · rw [if_pos h1] at h
      cases hk : dims.findIdx? (fun d => d == self.time.name) with
      | none => rw [hk] at h; simp at h
      | some k =>
        rw [hk] at h
        try dsimp only at h
        exact ⟨_, congrArg MetricsDataset.metrics (Except.ok.inj h).symm⟩
    · rw [if_neg h1] at h
      by_cases h2 : tm = "instantaneous"
      · rw [if_pos h2] at h
        cases hk : dims.findIdx? (fun d => d == self.time.name) with
        | none => rw [hk] at h; simp at h
        | some k =>
          rw [hk] at h
          try dsimp only at h
          by_cases hk0 : k ≠ 0
          · rw [if_pos hk0] at h
            simp at h
          · rw [if_neg hk0] at h
            try dsimp only at h
            exact ⟨_, congrArg MetricsDataset.metrics (Except.ok.inj h).symm⟩
      · rw [if_neg h2] at h
        by_cases h3 : tm = "time series"
        · rw [if_pos h3] at h
          try dsimp only at h
          exact ⟨_, congrArg MetricsDataset.metrics (Except.ok.inj h).symm⟩
        · rw [if_neg h3] at h
          simp at h

/-- Witness for C8: the variable whose time axis is second raises the
slowest-varying error under "instantaneous", and the unknown method
"climatology" raises the invalid-method error, on the example dataset. -/
theorem C8_witness :
    exMD.add_metric "bad" (MetricSource.byName "vtimelast") "instantaneous" 0 =
      Except.error "time must be the slowest varying dimension." ∧
    exMD.add_metric "bad" (MetricSource.byName "v322") "climatology" 0 =
      Except.error "A valid time_method must be specified." := by
  refine ⟨?_, ?_⟩
  · exact C8_add_metric_errors.1 exMD "bad" (MetricSource.byName "vtimelast") 0
      ["y", "time"] "K" vTimeLast.data 1 rfl rfl (by decide)
  · exact C8_add_metric_errors.2.1 exMD "bad" (MetricSource.byName "v322")
      "climatology" 0 ["time", "y", "x"] "K" v322.data rfl (by decide)
      (by decide) (by decide)

theorem gridMatch_iff (axis : String) (v : Variable) :
    (v.dimensions.length == 1 &&
      (match v.getncattr "axis" with
       | some a => lowerStr a == lowerStr axis
       | none => false)) = true ↔ GridMatch axis v := by
  unfold GridMatch
  cases hv : v.getncattr "axis" with
  | none => simp
  | some a =>
    simp only [Bool.and_eq_true, beq_iff_eq]
    constructor
    · rintro ⟨h1, h2⟩
      exact ⟨h1, a, rfl, h2⟩
    · rintro ⟨h1, b, hb, h2⟩
      cases Option.some.inj hb
      exact ⟨h1, h2⟩

theorem grid_err {ds : Dataset} {axis : String}
    (h : ds.vars.filter (fun v =>
      v.dimensions.length == 1 &&
        (match v.getncattr "axis" with
         | some a => lowerStr a == lowerStr axis
         | none => false)) = []) :
    grid ds axis = Except.error "no grid variables found." := by
  unfold grid
  rw [h]
  rfl

theorem grid_ok {ds : Dataset} {axis : String}
    (h : ds.vars.filter (fun v =>
      v.dimensions.length == 1 &&
        (match v.getncattr "axis" with
         | some a => lowerStr a == lowerStr axis
         | none => false)) ≠ []) :
    grid ds axis = Except.ok (ds.vars.filter (fun v =>
      v.dimensions.length == 1 &&
        (match v.getncattr "axis" with
         | some a => lowerStr a == lowerStr axis
         | none => false))) := by
  unfold grid
  rw [if_neg]
  intro hc
  exact h (List.isEmpty_iff.mp hc)

theorem grid_error_msg {ds : Dataset} {axis e : String}
    (h : grid ds axis = Except.error e) : e = "no grid variables found." := by
  unfold grid at h
  dsimp only at h
  split at h
  · exact (Except.error.inj h).symm
  · simp at h

/-- C9: `grid` returns exactly the one-dimensional variables whose axis
attribute matches the requested role case-insensitively, in dataset order;
`MetricsDataset` construction fails with the discovery error when the
required time, longitude or latitude role has no matching variable; and a
dataset with matching time, longitude and latitude variables but no
vertical-role variable is accepted with an empty vertical list. -/
theorem C9_grid_discovery :
    (∀ (ds : Dataset) (axis : String) (l : List Variable),
      grid ds axis = Except.ok l →
        l ≠ [] ∧ l.Sublist ds.vars ∧ (∀ v ∈ l, GridMatch axis v) ∧
        (∀ v ∈ ds.vars, GridMatch axis v → v ∈ l)) ∧
    (∀ ds : Dataset, (∀ v ∈ ds.vars, ¬ GridMatch "t" v) →
      MetricsDataset.init ds = Except.error "no grid variables found.") ∧
    (∀ ds : Dataset, (∀ v ∈ ds.vars, ¬ GridMatch "x" v) →
      MetricsDataset.init ds = Except.error "no grid variables found.") ∧
    (∀ ds : Dataset, (∀ v ∈ ds.vars, ¬ GridMatch "y" v) →
      MetricsDataset.init ds = Except.error "no grid variables found.") ∧
    (∀ ds : Dataset,
      (∃ v ∈ ds.vars, GridMatch "t" v) → (∃ v ∈ ds.vars, GridMatch "x" v) →
      (∃ v ∈ ds.vars, GridMatch "y" v) →
      ∃ md, MetricsDataset.init ds = Except.ok md ∧
        ((∀ v ∈ ds.vars, ¬ GridMatch "z" v) → md.vertical = [])) := by
  have hfilne : ∀ (ds : Dataset) (axis : String),
      (∃ v ∈ ds.vars, GridMatch axis v) →
      ds.vars.filter (fun v =>
        v.dimensions.length == 1 &&
          (match v.getncattr "axis" with
           | some a => lowerStr a == lowerStr axis
           | none => false)) ≠ [] := by
    rintro ds axis ⟨v, hv, hm⟩
    exact List.ne_nil_of_mem
      (List.mem_filter.mpr ⟨hv, (gridMatch_iff axis v).mpr hm⟩)
  have hfilnil : ∀ (ds : Dataset) (axis : String),
      (∀ v ∈ ds.vars, ¬ GridMatch axis v) →
      ds.vars.filter (fun v =>
        v.dimensions.length == 1 &&
          (match v.getncattr "axis" with
           | some a => lowerStr a == lowerStr axis
           | none => false)) = [] := by
    intro ds axis hall
    rw [List.filter_eq_nil_iff]
    intro v hv hp
    exact hall v hv ((gridMatch_iff axis v).mp hp)
  refine ⟨?_, ?_, ?_, ?_, ?_⟩
  · intro ds axis l hl
    by_cases hnil : ds.vars.filter (fun v =>
        v.dimensions.length == 1 &&
          (match v.getncattr "axis" with
           | some a => lowerStr a == lowerStr axis
           | none => false)) = []
    · rw [grid_err hnil] at hl
      simp at hl
    · rw [grid_ok hnil] at hl
      have hl2 := (Except.ok.inj hl).symm
      subst hl2
      refine ⟨hnil, List.filter_sublist _, ?_, ?_⟩
      · intro v hv
        exact (gridMatch_iff axis v).mp (List.mem_filter.mp hv).2
      · intro v hv hm
        exact List.mem_filter.mpr ⟨hv, (gridMatch_iff axis v).mpr hm⟩
  · intro ds hall
    unfold MetricsDataset.init
    simp only [bind, Except.bind]
    rw [grid_err (hfilnil ds "t" hall)]
  · intro ds hall
    unfold MetricsDataset.init
    simp only [bind, Except.bind]
    cases ht : grid ds "t" with
    | error e =>
      try dsimp only
      rw [grid_error_msg ht]
    | ok tl =>
      try dsimp only
      rw [grid_err (hfilnil ds "x" hall)]
  · intro ds hall
    unfold MetricsDataset.init
    simp only [bind, Except.bind]
    cases ht : grid ds "t" with
    | error e =>
      try dsimp only
      rw [grid_error_msg ht]
    | ok tl =>
      try dsimp only
      cases hx : grid ds "x" with
      | error e =>
        try dsimp only
        rw [grid_error_msg hx]
      | ok xl =>
        try dsimp only
        rw [grid_err (hfilnil ds "y" hall)]
  · intro ds hat hax hay
    obtain ⟨t0, tr, htl⟩ := List.exists_cons_of_ne_nil (hfilne ds "t" hat)
    obtain ⟨x0, xr, hxl⟩ := List.exists_cons_of_ne_nil (hfilne ds "x" hax)
    obtain ⟨y0, yr, hyl⟩ := List.exists_cons_of_ne_nil (hfilne ds "y" hay)
    unfold MetricsDataset.init
    simp only [bind, Except.bind]
    rw [grid_ok (hfilne ds "t" hat), htl]
    try dsimp only
    rw [grid_ok (hfilne ds "x" hax), hxl]
    try dsimp only
    rw [grid_ok (hfilne ds "y" hay), hyl]
    try dsimp only
    refine ⟨_, rfl, ?_⟩
    intro hz
    show (match grid ds "z" with
      | Except.ok l => l
      | Except.error _ => []) = []
    rw [grid_err (hfilnil ds "z" hz)]

/-- Witness for C9: the dataset holding only longitude and latitude variables
is rejected with the discovery error (no time role), while the dataset with
time, longitude and latitude but no vertical variable is accepted and gets an
empty vertical list. -/
theorem C9_witness :
    MetricsDataset.init (⟨[lonVar, latVar]⟩ : Dataset) =
      Except.error "no grid variables found." ∧
    ∃ md, MetricsDataset.init exDatasetNoZ = Except.ok md ∧ md.vertical = [] := by
  refine ⟨?_, ?_⟩
  · refine C9_grid_discovery.2.1 ⟨[lonVar, latVar]⟩ ?_
    intro v hv
    have hv2 : v = lonVar ∨ v = latVar := by
      have hm : v ∈ [lonVar, latVar] := hv
      simpa using hm
    rcases hv2 with rfl | rfl
    · rintro ⟨-, a, ha, hla⟩
      rw [show lonVar.getncattr "axis" = some "X" from rfl] at ha
      cases ha
      exact absurd hla (by decide)
    · rintro ⟨-, a, ha, hla⟩
      rw [show latVar.getncattr "axis" = some "Y" from rfl] at ha
      cases ha
      exact absurd hla (by decide)
  · obtain ⟨md, hmd, hz⟩ := C9_grid_discovery.2.2.2.2 exDatasetNoZ
      ⟨timeVar, List.mem_cons_self _ _, rfl, "T", rfl, by decide⟩
      ⟨lonVar, List.mem_cons_of_mem _ (List.mem_cons_self _ _), rfl, "X", rfl,
        by decide⟩
      ⟨latVar, List.mem_cons_of_mem _ (List.mem_cons_of_mem _
        (List.mem_cons_self _ _)), rfl, "Y", rfl, by decide⟩
    refine ⟨md, hmd, hz ?_⟩
    intro v hv
    have hv2 : v = timeVar ∨ v = lonVar ∨ v = latVar ∨ v = v322 := by
      have hm : v ∈ [timeVar, lonVar, latVar, v322] := hv
      simpa using hm
    rcases hv2 with rfl | rfl | rfl | rfl
    · rintro ⟨-, a, ha, hla⟩
      rw [show timeVar.getncattr "axis" = some "T" from rfl] at ha
      cases ha
      exact absurd hla (by decide)
    · rintro ⟨-, a, ha, hla⟩
      rw [show lonVar.getncattr "axis" = some "X" from rfl] at ha
      cases ha
      exact absurd hla (by decide)
    · rintro ⟨-, a, ha, hla⟩
      rw [show latVar.getncattr "axis" = some "Y" from rfl] at ha
      cases ha
      exact absurd hla (by decide)
    · rintro ⟨-, a, ha, hla⟩
      rw [show v322.getncattr "axis" = none from rfl] at ha
      cases ha

/-- C10: constructing a `Fluxes` object requires at least one vertical
dimension: when the base `MetricsDataset` construction succeeds with an empty
vertical list, `Fluxes.init` fails with the IndexError, even though the base
constructor accepted the dataset; with a first vertical variable carrying a
`positive` attribute the construction succeeds and fixes the
top-of-atmosphere/surface index convention from that attribute. -/
theorem C10_fluxes_requires_vertical :
    (∀ (ds : Dataset) (base : MetricsDataset),
      MetricsDataset.init ds = Except.ok base → base.vertical = [] →
      Fluxes.init ds = Except.error "IndexError: list index out of range") ∧
    (∀ (ds : Dataset) (base : MetricsDataset) (v0 : Variable)
       (rest : List Variable) (p : String),
      MetricsDataset.init ds = Except.ok base → base.vertical = v0 :: rest →
      v0.getncattr "positive" = some p →
      Fluxes.init ds = Except.ok
        ⟨base, if lowerStr p = "down" then 0 else -1,
         if lowerStr p = "down" then -1 else 0⟩) := by
  refine ⟨?_, ?_⟩
  · intro ds base hinit hvert
    unfold Fluxes.init
    simp only [bind, Except.bind]
    rw [hinit]
    try dsimp only
    rw [hvert]
  · intro ds base v0 rest p hinit hvert hp
    unfold Fluxes.init
    simp only [bind, Except.bind]
    rw [hinit]
    try dsimp only
    rw [hvert]
    try dsimp only
    rw [hp]
    try dsimp only
    by_cases hd : lowerStr p = "down"
    · rw [if_pos hd, if_pos hd, if_pos hd]
    · rw [if_neg hd, if_neg hd, if_neg hd]

/-- Witness for C10: the vertical-free dataset is accepted by the base
constructor but rejected by `Fluxes.init`; the full example dataset with a
pressure-like ("positive: down") vertical variable produces the example
`Fluxes` object with the top of the atmosphere at index 0. -/
theorem C10_witness :
    Fluxes.init exDatasetNoZ = Except.error "IndexError: list index out of range" ∧
    Fluxes.init exDataset = Except.ok exFluxes := by
  refine ⟨?_, ?_⟩
  · exact C10_fluxes_requires_vertical.1 exDatasetNoZ
      ⟨exDatasetNoZ, timeVar, lonVar, latVar, [], []⟩ rfl rfl
  · have h := C10_fluxes_requires_vertical.2 exDataset exMD levelVar [] "down"
      rfl rfl rfl
    rw [if_pos (by decide), if_pos (by decide)] at h
    exact h

/-- C4: whenever the case-comparison assembler succeeds, it has evaluated the
chosen derivation method once per case with that case's data label (the
baseline evaluation is subtracted from the primary result for the two cases
with a baseline), and the returned mapping is ordered over all four case
titles; moreover the first three entries sum pointwise to the fourth. -/
theorem C4_quad_maps {f : Fluxes} {metric regime : String} {loc : Option String}
    {mm : String} {f4 : Fluxes} {out : List (String × DerivedMetric)}
    (h : quad_maps f metric regime loc mm = Except.ok (f4, out)) :
    ∃ m1 m2 m3,
      callMetricMethod f metric regime "clean-clear" loc = Except.ok m1 ∧
      callMetricMethod f metric regime "clean" loc = Except.ok m2 ∧
      callMetricMethod f metric regime "all" loc = Except.ok m3 ∧
      out = [("Clean-clear Sky", m1),
             ("Cloud Effects", { m2 with data := m2.data.sub m1.data }),
             ("Aerosol Effects", { m3 with data := m3.data.sub m2.data }),
             ("All Sky", m3)] ∧
      out.map Prod.fst = case_list.map Case.title ∧
      ∀ idx,
        m1.data.val idx + (m2.data.sub m1.data).val idx +
          (m3.data.sub m2.data).val idx = m3.data.val idx := by
  obtain ⟨m1, m2, m3, h1, h2, h3, hout⟩ := quad_maps_ok_elim h
  refine ⟨m1, m2, m3, h1, h2, h3, hout, ?_, ?_⟩
  · rw [hout]
    rfl
  · intro idx
    show m1.data.val idx + (m2.data.val idx - m1.data.val idx) +
      (m3.data.val idx - m2.data.val idx) = m3.data.val idx
    ring

/-- Witness for C4: on the example dataset with constant primitive fluxes
all = 10, clean = 7, clean-clear = 5, the assembled mapping carries the four
titles in order with constant fields 5, 2, 3 and 10, and 5 + 2 + 3 = 10. -/
theorem C4_witness :
    ∃ f4 out,
      quad_maps exFluxes "flux_up" "longwave" (some "toa") "lon_lat_map" =
        Except.ok (f4, out) ∧
      out.map Prod.fst =
        ["Clean-clear Sky", "Cloud Effects", "Aerosol Effects", "All Sky"] ∧
      ∃ g1 g2 g3 g4, out.map Prod.snd = [g1, g2, g3, g4] ∧
        (∀ idx, g1.data.val idx = 5) ∧ (∀ idx, g2.data.val idx = 2) ∧
        (∀ idx, g3.data.val idx = 3) ∧ (∀ idx, g4.data.val idx = 10) ∧
        (5 : ℝ) + 2 + 3 = 10 := by
  obtain ⟨⟨f4x, outx⟩, h⟩ : ∃ p,
      quad_maps exFluxes "flux_up" "longwave" (some "toa") "lon_lat_map" =
        Except.ok p := ⟨_, rfl⟩
  obtain ⟨m1, m2, m3, h1, h2, h3, hout, ht, -⟩ := C4_quad_maps h
  have e1 : callMetricMethod exFluxes "flux_up" "longwave" "clean-clear"
      (some "toa") = Except.ok ⟨⟨[3, 4, 8], fun _ => (5 : ℝ)⟩,
        ["time", "lat", "lon"], "W m-2"⟩ := rfl
  have e2 : callMetricMethod exFluxes "flux_up" "longwave" "clean"
      (some "toa") = Except.ok ⟨⟨[3, 4, 8], fun _ => (7 : ℝ)⟩,
        ["time", "lat", "lon"], "W m-2"⟩ := rfl
  have e3 : callMetricMethod exFluxes "flux_up" "longwave" "all"
      (some "toa") = Except.ok ⟨⟨[3, 4, 8], fun _ => (10 : ℝ)⟩,
        ["time", "lat", "lon"], "W m-2"⟩ := rfl
  obtain rfl : m1 = _ := Except.ok.inj (h1.symm.trans e1)
  obtain rfl : m2 = _ := Except.ok.inj (h2.symm.trans e2)
  obtain rfl : m3 = _ := Except.ok.inj (h3.symm.trans e3)
  refine ⟨f4x, outx, h, by rw [ht]; rfl, _, _, _, _, by rw [hout]; rfl,
    fun idx => rfl, fun idx => ?_, fun idx => ?_, fun idx => rfl, by norm_num⟩
  · show (7 : ℝ) - 5 = 2
    norm_num
  · show (10 : ℝ) - 7 = 3
    norm_num

/-- C1: every DerivedMetric produced by the system's operations satisfies
len(dimensions) = data.ndim, and the invariant is preserved from inputs to
outputs: `add_metric` under each of the three time methods (given a
well-formed source, and for "time series" a grid whose longitude and latitude
names are distinct and occur once each), `flux` with or without a location,
`toa_energy_balance` and `atmospheric_divergence` (given rank agreement of
the up/down flux variables), `heating_rate`, and every metric in the mapping
assembled by the case comparison. -/
theorem C1_dimension_invariant :
    (∀ (self : MetricsDataset) (n : String) (src : MetricSource) (tm : String)
       (ti : Nat) (self' : MetricsDataset) (dims : List String)
       (units : String) (data : NdArray),
      self.resolveSource src = Except.ok (dims, units, data) →
      dims.length = data.ndim →
      (tm = "time series" →
        self.longitude.name ≠ self.latitude.name ∧
        dims.count self.longitude.name = 1 ∧
        dims.count self.latitude.name = 1) →
      self.WfMetrics →
      self.add_metric n src tm ti = Except.ok self' → self'.WfMetrics) ∧
    (∀ (f : Fluxes) (r d c : String) (loc : Option String) (m : DerivedMetric),
      f.dataset.Wf → f.flux r d c loc = Except.ok m → m.Wf) ∧
    (∀ (f : Fluxes) (r c : String) (m : DerivedMetric),
      f.dataset.Wf → RankUD f r c →
      f.toa_energy_balance r c = Except.ok m → m.Wf) ∧
    (∀ (f : Fluxes) (r c : String) (m : DerivedMetric),
      f.dataset.Wf → RankUD f r c →
      f.atmospheric_divergence r c = Except.ok m → m.Wf) ∧
    (∀ (f : Fluxes) (r c : String) (m : DerivedMetric),
      f.dataset.Wf → f.heating_rate r c = Except.ok m → m.Wf) ∧
    (∀ (f : Fluxes) (metric regime : String) (loc : Option String)
       (mm : String) (f4 : Fluxes) (out : List (String × DerivedMetric)),
      (∀ cc dm, callMetricMethod f metric regime cc loc = Except.ok dm →
        dm.Wf) →
      quad_maps f metric regime loc mm = Except.ok (f4, out) →
      ∀ p ∈ out, (p.2 : DerivedMetric).Wf) := by
  refine ⟨?_, ?_, ?_, ?_, ?_, ?_⟩
  · intro self n src tm ti self' dims units data hres hwf hts hm h
    exact add_metric_preserves_wf hres hwf hts hm h
  · intro f r d c loc m hds h
    exact flux_wf hds h
  · intro f r c m hds hrk h
    exact toa_energy_balance_wf hds hrk h
  · intro f r c m hds hrk h
    exact atmospheric_divergence_wf hds hrk h
  · intro f r c m hds h
    obtain ⟨rs, cs, v, u0, -, -, hv, -, hm⟩ := heating_rate_ok_elim h
    subst hm
    exact hds v (getVar_mem hv)
  · intro f metric regime loc mm f4 out hcall h p hp
    obtain ⟨m1, m2, m3, h1, h2, h3, hout⟩ := quad_maps_ok_elim h
    rw [hout] at hp
    simp only [List.mem_cons, List.not_mem_nil, or_false] at hp
    rcases hp with rfl | rfl | rfl | rfl
    · exact hcall "clean-clear" m1 h1
    · show m2.dimensions.length = (m2.data.sub m1.data).ndim
      exact hcall "clean" m2 h2
    · show m3.dimensions.length = (m3.data.sub m2.data).ndim
      exact hcall "all" m3 h3
    · exact hcall "all" m3 h3

/-- Witness for C1: the invariant instantiated on the example dataset — a
time average, a located flux lookup, the two energy balances, the heating
rate, and the full case-comparison run all yield well-formed metrics. -/
theorem C1_witness :
    (∃ self', exMD.add_metric "mymetric" (MetricSource.byName "v322")
        "average" 0 = Except.ok self' ∧ self'.WfMetrics) ∧
    (∃ m, exFluxes.flux "longwave" "up" "all" (some "toa") = Except.ok m ∧
      m.Wf) ∧
    (∃ m, exFluxes.toa_energy_balance "longwave" "all" = Except.ok m ∧ m.Wf) ∧
    (∃ m, exFluxes.atmospheric_divergence "longwave" "all" = Except.ok m ∧
      m.Wf) ∧
    (∃ m, exFluxes.heating_rate "longwave" "all" = Except.ok m ∧ m.Wf) ∧
    (∃ f4 out, quad_maps exFluxes "flux_up" "longwave" (some "toa")
        "lon_lat_map" = Except.ok (f4, out) ∧
      ∀ p ∈ out, (p.2 : DerivedMetric).Wf) := by
  have hds : exFluxes.dataset.Wf := by decide
  have hrk : RankUD exFluxes "longwave" "all" := by
    intro rs cs vu vd h1 h2 h3 h4
    have hrs : rs = "l" := (Option.some.inj
      ((show List.lookup "longwave" Fluxes.regimes = some "l" from
        rfl).symm.trans h1)).symm
    subst hrs
    have hcs : cs = "" := (Option.some.inj
      ((show List.lookup "all" Fluxes.sky = some "" from rfl).symm.trans
        h2)).symm
    subst hcs
    have hvu : vu = constFluxVar "rlu" 10 := Option.some.inj
      ((show exFluxes.dataset.getVar ("r" ++ "l" ++ "u" ++ "") =
        some (constFluxVar "rlu" 10) from rfl).symm.trans h3).symm
    have hvd : vd = constFluxVar "rld" 10 := Option.some.inj
      ((show exFluxes.dataset.getVar ("r" ++ "l" ++ "d" ++ "") =
        some (constFluxVar "rld" 10) from rfl).symm.trans h4).symm
    subst hvu hvd
    rfl
  refine ⟨?_, ?_, ?_, ?_, ?_, ?_⟩
  · obtain ⟨self', hs⟩ : ∃ s, exMD.add_metric "mymetric"
        (MetricSource.byName "v322") "average" 0 = Except.ok s := ⟨_, rfl⟩
    exact ⟨self', hs, C1_dimension_invariant.1 exMD "mymetric"
      (MetricSource.byName "v322") "average" 0 self' ["time", "y", "x"] "K"
      v322.data rfl (by decide) (fun hh => absurd hh (by decide))
      (by decide) hs⟩
  · obtain ⟨m, hm⟩ : ∃ m, exFluxes.flux "longwave" "up" "all" (some "toa") =
        Except.ok m := ⟨_, rfl⟩
    exact ⟨m, hm, C1_dimension_invariant.2.1 exFluxes "longwave" "up" "all"
      (some "toa") m hds hm⟩
  · obtain ⟨m, hm⟩ : ∃ m, exFluxes.toa_energy_balance "longwave" "all" =
        Except.ok m := ⟨_, rfl⟩
    exact ⟨m, hm, C1_dimension_invariant.2.2.1 exFluxes "longwave" "all" m
      hds hrk hm⟩
  · obtain ⟨m, hm⟩ : ∃ m, exFluxes.atmospheric_divergence "longwave" "all" =
        Except.ok m := ⟨_, rfl⟩
    exact ⟨m, hm, C1_dimension_invariant.2.2.2.1 exFluxes "longwave" "all" m
      hds hrk hm⟩
  · obtain ⟨m, hm⟩ : ∃ m, exFluxes.heating_rate "longwave" "all" =
        Except.ok m := ⟨_, rfl⟩
    exact ⟨m, hm, C1_dimension_invariant.2.2.2.2.1 exFluxes "longwave" "all" m
      hds hm⟩
  · obtain ⟨⟨f4, out⟩, hq⟩ : ∃ p, quad_maps exFluxes "flux_up" "longwave"
        (some "toa") "lon_lat_map" = Except.ok p := ⟨_, rfl⟩
    refine ⟨f4, out, hq, C1_dimension_invariant.2.2.2.2.2 exFluxes "flux_up"
      "longwave" (some "toa") "lon_lat_map" f4 out ?_ hq⟩
    intro cc dm hdm
    exact C1_dimension_invariant.2.1 exFluxes "longwave" "up" cc (some "toa")
      dm hds hdm
